import Mathlib

/-!
Verification of the ADflow turbulence-coefficient calibration toolkit.

This file gives a shallow embedding of the two core components of the
repository and proves the specified properties about them:

* `adflow_turb_ctypes.py` — the Coefficient Bridge: symbol tables for the
  SA and SST closure-coefficient slots, lazy resolution of the gfortran
  symbols (`_ensure_init`), and the batch setters / getters
  (`set_sa_constants`, `get_sa_constants`, `set_sst_constants`,
  `get_sst_constants`, `set_sa_defaults`, `set_sst_defaults`).
  Double-precision values are modelled as exact rationals; the live
  Fortran module memory is modelled as a function from slots to values,
  together with the set of slots that resolved during initialisation
  (the keys of the `_sa_vars` / `_sst_vars` dictionaries).  A write or
  read of an unbound slot is a Python `KeyError`, modelled as the
  `Except.error` case carrying the offending slot (and, for writes, the
  state at the moment the exception is raised, since earlier writes to
  live memory persist).

* `patch_adflow_turb.py` — the Source Patcher: the five per-file patch
  steps and `main`, over a filesystem modelled as the five target files
  and their `.bak` backups, each an optional `List Char` content.
  Python string operations (`in`, `str.replace`, `str.lower`, one-count
  `str.replace`) are modelled on `List Char`.
-/

/-! ## The Coefficient Bridge: slots and symbol tables -/

/-- The thirteen SA-model slots of the Fortran `paramTurb` module, the keys of
the `_SA_SYMBOL_MAP` dictionary in `adflow_turb_ctypes.py`. -/
inductive SASlot where
  | rsacb1 | rsacb2 | rsacb3 | rsak | rsacv1 | rsacw1 | rsacw2 | rsacw3
  | rsact1 | rsact2 | rsact3 | rsact4 | rsacrot
  deriving DecidableEq

/-- The nine SST-model slots, the keys of `_SST_SYMBOL_MAP`. -/
inductive SSTSlot where
  | rsstk | rssta1 | rsstbetas | rsstsigk1 | rsstsigw1 | rsstbeta1
  | rsstsigk2 | rsstsigw2 | rsstbeta2
  deriving DecidableEq

/-- The Python dictionary key (the logical variable name) of each SA slot. -/
def saName : SASlot → String
  | .rsacb1 => "rsacb1"
  | .rsacb2 => "rsacb2"
  | .rsacb3 => "rsacb3"
  | .rsak => "rsak"
  | .rsacv1 => "rsacv1"
  | .rsacw1 => "rsacw1"
  | .rsacw2 => "rsacw2"
  | .rsacw3 => "rsacw3"
  | .rsact1 => "rsact1"
  | .rsact2 => "rsact2"
  | .rsact3 => "rsact3"
  | .rsact4 => "rsact4"
  | .rsacrot => "rsacrot"

/-- The Python dictionary key of each SST slot. -/
def sstName : SSTSlot → String
  | .rsstk => "rsstk"
  | .rssta1 => "rssta1"
  | .rsstbetas => "rsstbetas"
  | .rsstsigk1 => "rsstsigk1"
  | .rsstsigw1 => "rsstsigw1"
  | .rsstbeta1 => "rsstbeta1"
  | .rsstsigk2 => "rsstsigk2"
  | .rsstsigw2 => "rsstsigw2"
  | .rsstbeta2 => "rsstbeta2"

/-- `_SA_SYMBOL_MAP` of `adflow_turb_ctypes.py`: slot name → gfortran symbol,
in the source's dictionary order. -/
def SA_SYMBOL_MAP : List (SASlot × String) :=
  [(.rsacb1, "__paramturb_MOD_rsacb1"),
   (.rsacb2, "__paramturb_MOD_rsacb2"),
   (.rsacb3, "__paramturb_MOD_rsacb3"),
   (.rsak, "__paramturb_MOD_rsak"),
   (.rsacv1, "__paramturb_MOD_rsacv1"),
   (.rsacw1, "__paramturb_MOD_rsacw1"),
   (.rsacw2, "__paramturb_MOD_rsacw2"),
   (.rsacw3, "__paramturb_MOD_rsacw3"),
   (.rsact1, "__paramturb_MOD_rsact1"),
   (.rsact2, "__paramturb_MOD_rsact2"),
   (.rsact3, "__paramturb_MOD_rsact3"),
   (.rsact4, "__paramturb_MOD_rsact4"),
   (.rsacrot, "__paramturb_MOD_rsacrot")]

/-- `_SST_SYMBOL_MAP` of `adflow_turb_ctypes.py`. -/
def SST_SYMBOL_MAP : List (SSTSlot × String) :=
  [(.rsstk, "__paramturb_MOD_rsstk"),
   (.rssta1, "__paramturb_MOD_rssta1"),
   (.rsstbetas, "__paramturb_MOD_rsstbetas"),
   (.rsstsigk1, "__paramturb_MOD_rsstsigk1"),
   (.rsstsigw1, "__paramturb_MOD_rsstsigw1"),
   (.rsstbeta1, "__paramturb_MOD_rsstbeta1"),
   (.rsstsigk2, "__paramturb_MOD_rsstsigk2"),
   (.rsstsigw2, "__paramturb_MOD_rsstsigw2"),
   (.rsstbeta2, "__paramturb_MOD_rsstbeta2")]

/-- The gfortran name-composition rule stated by the spec for the Resolver:
a fixed prefix and infix wrapped around the lower-cased module and variable
names (`__<module>_MOD_<variable>`, all lowercase).  Lower-casing is the
character-wise ASCII lowering (the names involved are ASCII). -/
def gfortranMangle (modName var : String) : String :=
  "__" ++ String.mk (modName.data.map Char.toLower) ++ "_MOD_"
    ++ String.mk (var.data.map Char.toLower)

/-- The symbol-resolution loop of `_ensure_init`: for each (name, symbol)
pair of a symbol table, `ctypes.c_double.in_dll` either resolves the symbol
(when it is available in the loaded image) or raises `ValueError`, which the
loop swallows with `pass`, leaving that one name out of the bound dictionary.
`avail` says which symbols exist in the loaded image; the result is the list
of bound slot names (the keys of `_sa_vars` / `_sst_vars`). -/
def resolveVars {α : Type} (avail : String → Bool) (m : List (α × String)) : List α :=
  m.filterMap (fun p => if avail p.2 then some p.1 else none)

/-! ## The Coefficient Bridge: state, writes, reads -/

/-- The post-initialisation state of the Bridge in one process: the live
values of the Fortran module globals, and which slots resolved to a ctypes
handle during `_ensure_init` (membership in `_sa_vars` / `_sst_vars`). -/
structure BridgeState where
  sa : SASlot → ℚ
  sst : SSTSlot → ℚ
  saBound : SASlot → Bool
  sstBound : SSTSlot → Bool

/-- Write one SA slot of the live module memory (`handle.value = v`). -/
def setSAMem (s : BridgeState) (sl : SASlot) (v : ℚ) : BridgeState :=
  { s with sa := fun x => if x = sl then v else s.sa x }

/-- Write one SST slot of the live module memory. -/
def setSSTMem (s : BridgeState) (sl : SSTSlot) (v : ℚ) : BridgeState :=
  { s with sst := fun x => if x = sl then v else s.sst x }

/-- `_sa_vars[name].value = v`: a `KeyError` (carrying the offending slot and
the state at that moment) when the slot never resolved. -/
def saWrite (sl : SASlot) (v : ℚ) (s : BridgeState) :
    Except (SASlot × BridgeState) BridgeState :=
  if s.saBound sl then .ok (setSAMem s sl v) else .error (sl, s)

/-- `_sst_vars[name].value = v`. -/
def sstWrite (sl : SSTSlot) (v : ℚ) (s : BridgeState) :
    Except (SSTSlot × BridgeState) BridgeState :=
  if s.sstBound sl then .ok (setSSTMem s sl v) else .error (sl, s)

/-- `_sa_vars[name].value` read: a `KeyError` when the slot never resolved. -/
def saRead (sl : SASlot) (s : BridgeState) : Except SASlot ℚ :=
  if s.saBound sl then .ok (s.sa sl) else .error sl

/-- `_sst_vars[name].value` read. -/
def sstRead (sl : SSTSlot) (s : BridgeState) : Except SSTSlot ℚ :=
  if s.sstBound sl then .ok (s.sst sl) else .error sl

/-- `set_sa_constants` of `adflow_turb_ctypes.py`: the nine independent SA
coefficients are written in source order, then the derived constant
`rsacw1 = cb1 / (kappa * kappa) + (1.0 + cb2) / sigma` is written last. -/
def set_sa_constants (cb1 cb2 sigma kappa cv1 cw2 cw3 ct3 ct4 : ℚ)
    (s : BridgeState) : Except (SASlot × BridgeState) BridgeState := do
  let s ← saWrite .rsacb1 cb1 s
  let s ← saWrite .rsacb2 cb2 s
  let s ← saWrite .rsacb3 sigma s
  let s ← saWrite .rsak kappa s
  let s ← saWrite .rsacv1 cv1 s
  let s ← saWrite .rsacw2 cw2 s
  let s ← saWrite .rsacw3 cw3 s
  let s ← saWrite .rsact3 ct3 s
  let s ← saWrite .rsact4 ct4 s
  saWrite .rsacw1 (cb1 / (kappa * kappa) + (1.0 + cb2) / sigma) s

/-- `set_sa_defaults` of `adflow_turb_ctypes.py`. -/
def set_sa_defaults (s : BridgeState) : Except (SASlot × BridgeState) BridgeState :=
  set_sa_constants 0.1355 0.622 (2.0 / 3.0) 0.41 7.1 0.3 2.0 1.2 0.5 s

/-- The snapshot mapping returned by `get_sa_constants`. -/
structure SAConsts where
  cb1 : ℚ
  cb2 : ℚ
  sigma : ℚ
  kappa : ℚ
  cv1 : ℚ
  cw1 : ℚ
  cw2 : ℚ
  cw3 : ℚ
  ct3 : ℚ
  ct4 : ℚ
  deriving DecidableEq

/-- `get_sa_constants` of `adflow_turb_ctypes.py`: reads the ten SA slots in
the source's dictionary-literal order. -/
def get_sa_constants (s : BridgeState) : Except SASlot SAConsts := do
  let cb1 ← saRead .rsacb1 s
  let cb2 ← saRead .rsacb2 s
  let sigma ← saRead .rsacb3 s
  let kappa ← saRead .rsak s
  let cv1 ← saRead .rsacv1 s
  let cw1 ← saRead .rsacw1 s
  let cw2 ← saRead .rsacw2 s
  let cw3 ← saRead .rsacw3 s
  let ct3 ← saRead .rsact3 s
  let ct4 ← saRead .rsact4 s
  return ⟨cb1, cb2, sigma, kappa, cv1, cw1, cw2, cw3, ct3, ct4⟩

/-- `set_sst_constants` of `adflow_turb_ctypes.py`: the nine SST coefficients
written in source order (no derived slot). -/
def set_sst_constants (sstk a1 betas sigk1 sigw1 beta1 sigk2 sigw2 beta2 : ℚ)
    (s : BridgeState) : Except (SSTSlot × BridgeState) BridgeState := do
  let s ← sstWrite .rsstk sstk s
  let s ← sstWrite .rssta1 a1 s
  let s ← sstWrite .rsstbetas betas s
  let s ← sstWrite .rsstsigk1 sigk1 s
  let s ← sstWrite .rsstsigw1 sigw1 s
  let s ← sstWrite .rsstbeta1 beta1 s
  let s ← sstWrite .rsstsigk2 sigk2 s
  let s ← sstWrite .rsstsigw2 sigw2 s
  sstWrite .rsstbeta2 beta2 s

/-- `set_sst_defaults` of `adflow_turb_ctypes.py`. -/
def set_sst_defaults (s : BridgeState) : Except (SSTSlot × BridgeState) BridgeState :=
  set_sst_constants 0.41 0.31 0.09 0.85 0.5 0.075 1.0 0.856 0.0828 s

/-- The snapshot mapping returned by `get_sst_constants`. -/
structure SSTConsts where
  sstk : ℚ
  a1 : ℚ
  betas : ℚ
  sigk1 : ℚ
  sigw1 : ℚ
  beta1 : ℚ
  sigk2 : ℚ
  sigw2 : ℚ
  beta2 : ℚ
  deriving DecidableEq

/-- `get_sst_constants` of `adflow_turb_ctypes.py`. -/
def get_sst_constants (s : BridgeState) : Except SSTSlot SSTConsts := do
  let sstk ← sstRead .rsstk s
  let a1 ← sstRead .rssta1 s
  let betas ← sstRead .rsstbetas s
  let sigk1 ← sstRead .rsstsigk1 s
  let sigw1 ← sstRead .rsstsigw1 s
  let beta1 ← sstRead .rsstbeta1 s
  let sigk2 ← sstRead .rsstsigk2 s
  let sigw2 ← sstRead .rsstsigw2 s
  let beta2 ← sstRead .rsstbeta2 s
  return ⟨sstk, a1, betas, sigk1, sigw1, beta1, sigk2, sigw2, beta2⟩

/-! ## Sequenced-write view of the batch setters

The batch setters are straight-line sequences of dictionary writes; this
view names the sequence of (slot, value) pairs each setter performs, in
source order, so that partial execution (a `KeyError` part-way through) can
be reasoned about uniformly. -/

/-- Run a list of SA slot writes in order, stopping at the first unbound
slot with the `KeyError` state at that moment. -/
def saWriteSeq : List (SASlot × ℚ) → BridgeState →
    Except (SASlot × BridgeState) BridgeState
  | [], s => .ok s
  | p :: rest, s =>
    if s.saBound p.1 then saWriteSeq rest (setSAMem s p.1 p.2) else .error (p.1, s)

/-- Apply a list of SA slot writes to the memory unconditionally. -/
def applySAWrites (l : List (SASlot × ℚ)) (s : BridgeState) : BridgeState :=
  l.foldl (fun t p => setSAMem t p.1 p.2) s

/-- Run a list of SST slot writes in order. -/
def sstWriteSeq : List (SSTSlot × ℚ) → BridgeState →
    Except (SSTSlot × BridgeState) BridgeState
  | [], s => .ok s
  | p :: rest, s =>
    if s.sstBound p.1 then sstWriteSeq rest (setSSTMem s p.1 p.2) else .error (p.1, s)

/-- Apply a list of SST slot writes to the memory unconditionally. -/
def applySSTWrites (l : List (SSTSlot × ℚ)) (s : BridgeState) : BridgeState :=
  l.foldl (fun t p => setSSTMem t p.1 p.2) s

/-- The write sequence `set_sa_constants` performs, in source order: the nine
independent slots, then the derived `rsacw1`. -/
def saOrder (cb1 cb2 sigma kappa cv1 cw2 cw3 ct3 ct4 : ℚ) : List (SASlot × ℚ) :=
  [(.rsacb1, cb1), (.rsacb2, cb2), (.rsacb3, sigma), (.rsak, kappa),
   (.rsacv1, cv1), (.rsacw2, cw2), (.rsacw3, cw3), (.rsact3, ct3),
   (.rsact4, ct4), (.rsacw1, cb1 / (kappa * kappa) + (1.0 + cb2) / sigma)]

/-- The write sequence `set_sst_constants` performs, in source order. -/
def sstOrder (sstk a1 betas sigk1 sigw1 beta1 sigk2 sigw2 beta2 : ℚ) :
    List (SSTSlot × ℚ) :=
  [(.rsstk, sstk), (.rssta1, a1), (.rsstbetas, betas), (.rsstsigk1, sigk1),
   (.rsstsigw1, sigw1), (.rsstbeta1, beta1), (.rsstsigk2, sigk2),
   (.rsstsigw2, sigw2), (.rsstbeta2, beta2)]

/-- A state in which every slot of both models resolved (a patched binary),
with all memory cleared. -/
def boundState : BridgeState :=
  ⟨fun _ => 0, fun _ => 0, fun _ => true, fun _ => true⟩

/-- The concrete SA scenario of the Validation Harness (`test_sa_setter`):
`set_sa_constants(cb1=0.14, cb2=0.65, sigma=0.7, kappa=0.40, cv1=7.0,
cw2=0.055, cw3=2.5, ct3=1.0, ct4=0.4)` on a fully bound state, followed by
`get_sa_constants()`. -/
def saScenario : Except SASlot SAConsts :=
  match set_sa_constants 0.14 0.65 0.7 0.40 7.0 0.055 2.5 1.0 0.4 boundState with
  | .ok s => get_sa_constants s
  | .error e => .error e.1

/-! ## Python string operations on `List Char` -/

/-- Python's substring test `pat in s`. -/
def strContains : List Char → List Char → Bool
  | [], pat => pat.isEmpty
  | c :: rest, pat => pat.isPrefixOf (c :: rest) || strContains rest pat

/-- Python's `s.replace(pat, repl)`: replace every non-overlapping occurrence
of `pat`, scanning left to right (`pat` is nonempty in every use below). -/
def pyReplace (pat repl : List Char) : List Char → List Char
  | [] => []
  | c :: rest =>
    if pat ≠ [] ∧ pat.isPrefixOf (c :: rest) then
      repl ++ pyReplace pat repl (List.drop (pat.length - 1) rest)
    else
      c :: pyReplace pat repl rest
termination_by l => l.length
decreasing_by
  · simp only [List.length_drop, List.length_cons]
    omega
  · simp only [List.length_cons]
    omega

/-- Python's `s.replace(pat, repl, 1)`: replace at most the first occurrence. -/
def pyReplaceOne (pat repl : List Char) : List Char → List Char
  | [] => []
  | c :: rest =>
    if pat ≠ [] ∧ pat.isPrefixOf (c :: rest) then
      repl ++ List.drop (pat.length - 1) rest
    else
      c :: pyReplaceOne pat repl rest

/-- Python's `s.lower()` (the patched sources are ASCII). -/
def pyLower (s : List Char) : List Char := s.map Char.toLower

/-! ## The Source Patcher: the patch text constants of `patch_adflow_turb.py` -/

/-- The full replacement content the Patcher writes into `paramTurb.F90` (the `new_content` literal of `patch_paramturb`). -/
def PARAMTURB_NEW_TEXT : String :=
  "module paramTurb\n!\n!       Module that contains the constants for the turbulence models.\n!\n!       PATCHED: SA and SST constants are mutable (no 'parameter') to allow\n!       runtime modification for Bayesian calibration of closure coefficients.\n!       Default values are set via Fortran initialisers so they survive\n!       repeated referenceState calls without being clobbered.\n!       Other turbulence model constants (K-omega, K-tau, V2-f) remain as\n!       compile-time parameters.\n!\n    use constants, only: realType, intType\n    implicit none\n    save\n!\n! =======\x3d=======\x3d=======\x3d=======\x3d=======\x3d=======\x3d=======\x3d=======\x3d======\n!       Spalart-Allmaras constants (MUTABLE).\n!       Initialised here so defaults survive repeated referenceState calls.\n! =======\x3d=======\x3d=======\x3d=======\x3d=======\x3d=======\x3d=======\x3d=======\x3d======\n!\n!       9 calibration parameters (matching literature):\n    real(kind=realType) :: rsaK   = 0.41_realType      ! kappa\n    real(kind=realType) :: rsaCb1 = 0.1355_realType    ! production coeff\n    real(kind=realType) :: rsaCb2 = 0.622_realType     ! diffusion coeff\n    real(kind=realType) :: rsaCb3 = 0.66666666667_realType ! sigma (2/3)\n    real(kind=realType) :: rsaCv1 = 7.1_realType       ! wall damping coeff\n    real(kind=realType) :: rsaCw2 = 0.3_realType       ! destruction coeff\n    real(kind=realType) :: rsaCw3 = 2.0_realType       ! destruction coeff\n    real(kind=realType) :: rsaCt3 = 1.2_realType       ! transition coeff\n    real(kind=realType) :: rsaCt4 = 0.5_realType       ! transition coeff\n!\n!       Derived constant (auto-recomputed by setter):\n    real(kind=realType) :: rsaCw1 = 3.239067055837563_realType\n!\n!       Auxiliary (not in standard calibration set, but modifiable):\n    real(kind=realType) :: rsaCt1  = 1.0_realType      ! transition coeff\n    real(kind=realType) :: rsaCt2  = 2.0_realType      ! transition coeff\n    real(kind=realType) :: rsaCrot = 2.0_realType      ! rotation correction\n!\n! =======\x3d=======\x3d=======\x3d=======\x3d=======\x3d=======\x3d=======\x3d=======\x3d======\n!       K-omega SST constants (MUTABLE).\n!       Initialised here so defaults survive repeated referenceState calls.\n! =======\x3d=======\x3d=======\x3d=======\x3d=======\x3d=======\x3d=======\x3d=======\x3d======\n!\n    real(kind=realType) :: rSSTK     = 0.41_realType   ! kappa\n    real(kind=realType) :: rSSTA1    = 0.31_realType   ! limiter constant a1\n    real(kind=realType) :: rSSTBetas = 0.09_realType   ! beta*\n\n    real(kind=realType) :: rSSTSigk1 = 0.85_realType   ! sigma_k1\n    real(kind=realType) :: rSSTSigw1 = 0.5_realType    ! sigma_omega1\n    real(kind=realType) :: rSSTBeta1 = 0.075_realType  ! beta_1\n\n    real(kind=realType) :: rSSTSigk2 = 1.0_realType    ! sigma_k2\n    real(kind=realType) :: rSSTSigw2 = 0.856_realType  ! sigma_omega2\n    real(kind=realType) :: rSSTBeta2 = 0.0828_realType ! beta_2\n!\n! =======\x3d=======\x3d=======\x3d=======\x3d=======\x3d=======\x3d=======\x3d=======\x3d======\n!       K-omega constants (unchanged, compile-time parameters).\n! =======\x3d=======\x3d=======\x3d=======\x3d=======\x3d=======\x3d=======\x3d=======\x3d======\n!\n    real(kind=realType), parameter :: rkwK = 0.41_realType\n    real(kind=realType), parameter :: rkwSigk1 = 0.5_realType\n    real(kind=realType), parameter :: rkwSigw1 = 0.5_realType\n    real(kind=realType), parameter :: rkwSigd1 = 0.5_realType\n    real(kind=realType), parameter :: rkwBeta1 = 0.0750_realType\n    real(kind=realType), parameter :: rkwBetas = 0.09_realType\n!\n! =======\x3d=======\x3d=======\x3d=======\x3d=======\x3d=======\x3d=======\x3d=======\x3d======\n!       K-tau constants (unchanged).\n! =======\x3d=======\x3d=======\x3d=======\x3d=======\x3d=======\x3d=======\x3d=======\x3d======\n!\n    real(kind=realType), parameter :: rktK = 0.41_realType\n    real(kind=realType), parameter :: rktSigk1 = 0.5_realType\n    real(kind=realType), parameter :: rktSigt1 = 0.5_realType\n    real(kind=realType), parameter :: rktSigd1 = 0.5_realType\n    real(kind=realType), parameter :: rktBeta1 = 0.0750_realType\n    real(kind=realType), parameter :: rktBetas = 0.09_realType\n!\n! =======\x3d=======\x3d=======\x3d=======\x3d=======\x3d=======\x3d=======\x3d=======\x3d======\n!       V2-f constants (unchanged).\n! =======\x3d=======\x3d=======\x3d=======\x3d=======\x3d=======\x3d=======\x3d=======\x3d======\n!\n    real(kind=realType), parameter :: rvfC1 = 1.4_realType\n    real(kind=realType), parameter :: rvfC2 = 0.3_realType\n    real(kind=realType), parameter :: rvfBeta = 1.9_realType\n    real(kind=realType), parameter :: rvfSigk1 = 1.0_realType\n    real(kind=realType), parameter :: rvfSige1 = 0.7692307692_realType\n    real(kind=realType), parameter :: rvfSigv1 = 1.00_realType\n    real(kind=realType), parameter :: rvfCn = 70.0_realType\n\n    real(kind=realType), parameter :: rvfN1Cmu = 0.190_realType\n    real(kind=realType), parameter :: rvfN1A = 1.300_realType\n    real(kind=realType), parameter :: rvfN1B = 0.250_realType\n    real(kind=realType), parameter :: rvfN1Cl = 0.300_realType\n    real(kind=realType), parameter :: rvfN6Cmu = 0.220_realType\n    real(kind=realType), parameter :: rvfN6A = 1.400_realType\n    real(kind=realType), parameter :: rvfN6B = 0.045_realType\n    real(kind=realType), parameter :: rvfN6Cl = 0.230_realType\n\n    real(kind=realType) :: rvfLimitK, rvfLimitE, rvfCl\n    real(kind=realType) :: rvfCmu\n!\n! =======\x3d=======\x3d=======\x3d=======\x3d=======\x3d=======\x3d=======\x3d=======\x3d======\n!       Wall function fit variables (unchanged).\n! =======\x3d=======\x3d=======\x3d=======\x3d=======\x3d=======\x3d=======\x3d=======\x3d======\n!\n    integer(kind=intType) :: nFit\n\n    real(kind=realType), dimension(:), allocatable :: ypT, reT\n    real(kind=realType), dimension(:), allocatable :: up0, up1\n    real(kind=realType), dimension(:), allocatable :: up2, up3\n\n    real(kind=realType), dimension(:, :), allocatable :: tup0, tup1\n    real(kind=realType), dimension(:, :), allocatable :: tup2, tup3\n#ifndef USE_TAPENADE\n    real(kind=realType), dimension(:), allocatable :: ypTb, reTb\n    real(kind=realType), dimension(:), allocatable :: up0b, up1b\n    real(kind=realType), dimension(:), allocatable :: up2b, up3b\n#endif\n\n    logical, dimension(:), allocatable :: tuLogFit\n\ncontains\n\n! =======\x3d=======\x3d=======\x3d=======\x3d=======\x3d=======\x3d=======\x3d=======\x3d======\n!   SA setter subroutines\n! =======\x3d=======\x3d=======\x3d=======\x3d=======\x3d=======\x3d=======\x3d=======\x3d======\n\n    subroutine setSADefaults()\n        !\n        ! Reset all SA closure coefficients to their standard default values.\n        !\n        implicit none\n\n        rsaK   = 0.41_realType\n        rsaCb1 = 0.1355_realType\n        rsaCb2 = 0.622_realType\n        rsaCb3 = 0.66666666667_realType   ! sigma = 2/3\n        rsaCv1 = 7.1_realType\n        rsaCw2 = 0.3_realType\n        rsaCw3 = 2.0_realType\n        rsaCt1 = 1.0_realType\n        rsaCt2 = 2.0_realType\n        rsaCt3 = 1.2_realType\n        rsaCt4 = 0.5_realType\n        rsaCrot = 2.0_realType\n\n        ! Derived constant: c_w1 = c_b1/kappa^2 + (1+c_b2)/sigma\n        rsaCw1 = rsaCb1 / (rsaK * rsaK) &\n                 + (1.0_realType + rsaCb2) / rsaCb3\n\n    end subroutine setSADefaults\n\n    subroutine setSAConstants(cb1, cb2, sigma, kappa, cv1, cw2, cw3, ct3, ct4)\n        !\n        ! Set the 9 independent SA closure coefficients at runtime.\n        ! Automatically recomputes the derived constant c_w1.\n        !\n        implicit none\n        real(kind=realType), intent(in) :: cb1, cb2, sigma, kappa\n        real(kind=realType), intent(in) :: cv1, cw2, cw3, ct3, ct4\n\n        rsaCb1 = cb1\n        rsaCb2 = cb2\n        rsaCb3 = sigma    ! NOTE: rsaCb3 stores sigma, not c_b3\n        rsaK   = kappa\n        rsaCv1 = cv1\n        rsaCw2 = cw2\n        rsaCw3 = cw3\n        rsaCt3 = ct3\n        rsaCt4 = ct4\n\n        ! CRITICAL: recompute derived constant c_w1\n        rsaCw1 = rsaCb1 / (rsaK * rsaK) &\n                 + (1.0_realType + rsaCb2) / rsaCb3\n\n    end subroutine setSAConstants\n\n! =======\x3d=======\x3d=======\x3d=======\x3d=======\x3d=======\x3d=======\x3d=======\x3d======\n!   SST setter subroutines\n! =======\x3d=======\x3d=======\x3d=======\x3d=======\x3d=======\x3d=======\x3d=======\x3d======\n\n    subroutine setSSTDefaults()\n        !\n        ! Reset all SST closure coefficients to their standard default values.\n        !\n        implicit none\n\n        rSSTK     = 0.41_realType\n        rSSTA1    = 0.31_realType\n        rSSTBetas = 0.09_realType\n\n        rSSTSigk1 = 0.85_realType\n        rSSTSigw1 = 0.5_realType\n        rSSTBeta1 = 0.0750_realType\n\n        rSSTSigk2 = 1.0_realType\n        rSSTSigw2 = 0.856_realType\n        rSSTBeta2 = 0.0828_realType\n\n    end subroutine setSSTDefaults\n\n    subroutine setSSTConstants(sstk, a1, betas, sigk1, sigw1, beta1, &\n                               sigk2, sigw2, beta2)\n        !\n        ! Set the 9 SST closure coefficients at runtime.\n        ! All 9 coefficients are independent (no derived constants).\n        !\n        implicit none\n        real(kind=realType), intent(in) :: sstk, a1, betas\n        real(kind=realType), intent(in) :: sigk1, sigw1, beta1\n        real(kind=realType), intent(in) :: sigk2, sigw2, beta2\n\n        rSSTK     = sstk\n        rSSTA1    = a1\n        rSSTBetas = betas\n\n        rSSTSigk1 = sigk1\n        rSSTSigw1 = sigw1\n        rSSTBeta1 = beta1\n\n        rSSTSigk2 = sigk2\n        rSSTSigw2 = sigw2\n        rSSTBeta2 = beta2\n\n    end subroutine setSSTConstants\n\nend module paramTurb\n"

def PYF_MARKER_TEXT : String :=
  "       end module constants"

def PYF_BLOCK_TEXT : String :=
  "\n       module paramturb ! in :adflow:../../modules/paramTurb.F90\n         use constants\n         ! ----- SA constants (13 variables) -----\n         real(kind=realtype) :: rsak\n         real(kind=realtype) :: rsacb1\n         real(kind=realtype) :: rsacb2\n         real(kind=realtype) :: rsacb3\n         real(kind=realtype) :: rsacv1\n         real(kind=realtype) :: rsacw1\n         real(kind=realtype) :: rsacw2\n         real(kind=realtype) :: rsacw3\n         real(kind=realtype) :: rsact1\n         real(kind=realtype) :: rsact2\n         real(kind=realtype) :: rsact3\n         real(kind=realtype) :: rsact4\n         real(kind=realtype) :: rsacrot\n\n         ! ----- SST constants (9 variables) -----\n         real(kind=realtype) :: rsstk\n         real(kind=realtype) :: rssta1\n         real(kind=realtype) :: rsstbetas\n         real(kind=realtype) :: rsstsigk1\n         real(kind=realtype) :: rsstsigw1\n         real(kind=realtype) :: rsstbeta1\n         real(kind=realtype) :: rsstsigk2\n         real(kind=realtype) :: rsstsigw2\n         real(kind=realtype) :: rsstbeta2\n\n         ! ----- SA subroutines -----\n         subroutine setsadefaults()\n         end subroutine setsadefaults\n\n         subroutine setsaconstants(cb1, cb2, sigma, kappa, cv1, cw2, cw3, ct3, ct4)\n           real(kind=realtype), intent(in) :: cb1\n           real(kind=realtype), intent(in) :: cb2\n           real(kind=realtype), intent(in) :: sigma\n           real(kind=realtype), intent(in) :: kappa\n           real(kind=realtype), intent(in) :: cv1\n           real(kind=realtype), intent(in) :: cw2\n           real(kind=realtype), intent(in) :: cw3\n           real(kind=realtype), intent(in) :: ct3\n           real(kind=realtype), intent(in) :: ct4\n         end subroutine setsaconstants\n\n         ! ----- SST subroutines -----\n         subroutine setsstdefaults()\n         end subroutine setsstdefaults\n\n         subroutine setsstconstants(sstk, a1, betas, sigk1, sigw1, beta1, sigk2, sigw2, beta2)\n           real(kind=realtype), intent(in) :: sstk\n           real(kind=realtype), intent(in) :: a1\n           real(kind=realtype), intent(in) :: betas\n           real(kind=realtype), intent(in) :: sigk1\n           real(kind=realtype), intent(in) :: sigw1\n           real(kind=realtype), intent(in) :: beta1\n           real(kind=realtype), intent(in) :: sigk2\n           real(kind=realtype), intent(in) :: sigw2\n           real(kind=realtype), intent(in) :: beta2\n         end subroutine setsstconstants\n\n       end module paramturb\n"

def MODULE_PARAMTURB_TEXT : String :=
  "module paramturb"

def SST_OLD_IMPORTS_TEXT : String :=
  "        use constants\n        use blockPointers\n        use inputTimeSpectral\n        use iteration\n        use turbMod\n        use utils, only: setPointers\n        use turbUtils, only: kwCDTerm"

def SST_NEW_IMPORTS_TEXT : String :=
  "        use constants\n        use blockPointers\n        use inputTimeSpectral\n        use iteration\n        use turbMod\n        use paramTurb, only: rSSTBetas\n        use utils, only: setPointers\n        use turbUtils, only: kwCDTerm"

def USE_PARAMTURB_TEXT : String :=
  "use paramTurb, only: rSSTBetas"

def PAT_BETAS_TEXT : String :=
  "0.09_realType * w(i, j, k, itu2) * d2Wall(i, j, k))"

def REPL_BETAS_TEXT : String :=
  "rSSTBetas * w(i, j, k, itu2) * d2Wall(i, j, k))"

/-- The patch texts as character lists. -/
def PARAMTURB_NEW : List Char := PARAMTURB_NEW_TEXT.data

/-- `"       end module constants"`, the anchor `patch_pyf` inserts after. -/
def PYF_MARKER : List Char := PYF_MARKER_TEXT.data

/-- The f2py interface block `patch_pyf` inserts (the `paramturb_pyf` literal). -/
def PYF_BLOCK : List Char := PYF_BLOCK_TEXT.data

/-- `"module paramturb"`, the already-patched marker `patch_pyf` looks for in
the lower-cased file. -/
def MODULE_PARAMTURB : List Char := MODULE_PARAMTURB_TEXT.data

/-- The unpatched `use` block of the `f1SST` subroutine (`old_imports`). -/
def SST_OLD_IMPORTS : List Char := SST_OLD_IMPORTS_TEXT.data

/-- The patched `use` block with `use paramTurb, only: rSSTBetas` added
(`new_imports`). -/
def SST_NEW_IMPORTS : List Char := SST_NEW_IMPORTS_TEXT.data

/-- `"use paramTurb, only: rSSTBetas"`, the already-patched marker of
`patch_sst`. -/
def USE_PARAMTURB : List Char := USE_PARAMTURB_TEXT.data

/-- The hardcoded beta-star expression replaced in `SST.F90` and
`turbUtils.F90`. -/
def PAT_BETAS : List Char := PAT_BETAS_TEXT.data

/-- Its replacement, referring to the mutable `rSSTBetas` global. -/
def REPL_BETAS : List Char := REPL_BETAS_TEXT.data

/-! ## The Source Patcher: filesystem model and the five patch steps -/

/-- The five files `patch_adflow_turb.py` touches: `paramTurb.F90`,
`adflow.pyf`, `initializeFlow.F90`, `SST.F90`, `turbUtils.F90`. -/
inductive PatchTarget where
  | paramturb | pyf | initflow | sstf90 | turbutils
  deriving DecidableEq

/-- The source tree: each target file and its `.bak` backup, `none` when
the file does not exist. -/
structure FS where
  file : PatchTarget → Option (List Char)
  bak : PatchTarget → Option (List Char)

/-- `open(path, "w").write(c)`: creates or overwrites the target file. -/
def writeFileT (t : PatchTarget) (c : List Char) (fs : FS) : FS :=
  { fs with file := fun u => if u = t then some c else fs.file u }

/-- `shutil.copy2(path, path + ".bak")`: raises when the source is missing. -/
def copyToBak (t : PatchTarget) (fs : FS) : Except Unit FS :=
  match fs.file t with
  | some c => .ok { fs with bak := fun u => if u = t then some c else fs.bak u }
  | none => .error ()

/-- The shared backup idiom of every patch step: copy to `.bak` unless the
backup already exists. -/
def ensureBackup (t : PatchTarget) (fs : FS) : Except Unit FS :=
  if (fs.bak t).isSome then .ok fs else copyToBak t fs

/-- `open(path, "r").read()`: raises when the file is missing. -/
def readFileT (t : PatchTarget) (fs : FS) : Except Unit (List Char) :=
  match fs.file t with
  | some c => .ok c
  | none => .error ()

/-- `patch_paramturb`: one-time backup, then unconditionally write the full
deterministic replacement content. -/
def patch_paramturb (fs : FS) : Except Unit FS := do
  let fs1 ← ensureBackup .paramturb fs
  return writeFileT .paramturb PARAMTURB_NEW fs1

/-- `patch_pyf`: one-time backup; skip when the lower-cased content already
holds `module paramturb`; skip (with an error message, but no exception) when
the `end module constants` anchor is missing; otherwise splice the interface
block in after every anchor occurrence and write the result. -/
def patch_pyf (fs : FS) : Except Unit FS := do
  let fs1 ← ensureBackup .pyf fs
  let content ← readFileT .pyf fs1
  if strContains (pyLower content) MODULE_PARAMTURB then
    return fs1
  else if ¬ strContains content PYF_MARKER then
    return fs1
  else
    return writeFileT .pyf
      (pyReplace PYF_MARKER (PYF_MARKER ++ '\n' :: PYF_BLOCK) content) fs1

/-- `patch_initializeflow`: warn and skip when the file is missing; otherwise
one-time backup and read.  The source then removes any
`call setSADefaults()` / `call setSSTDefaults()` lines from the in-memory
content, but contains no write of the edited content back to the file, so
the only filesystem effect is the backup. -/
def patch_initializeflow (fs : FS) : Except Unit FS :=
  if (fs.file .initflow).isNone then .ok fs
  else do
    let fs1 ← ensureBackup .initflow fs
    let _ ← readFileT .initflow fs1
    return fs1

/-- `patch_sst`: warn and skip when the file is missing; otherwise one-time
backup, then (a) add `use paramTurb, only: rSSTBetas` to the `f1SST` import
block when the unpatched block is present and the use-line is not, and
(b) replace every hardcoded beta-star expression; write only when something
changed. -/
def patch_sst (fs : FS) : Except Unit FS :=
  if (fs.file .sstf90).isNone then .ok fs
  else do
    let fs1 ← ensureBackup .sstf90 fs
    let content ← readFileT .sstf90 fs1
    let step1 :=
      if strContains content SST_OLD_IMPORTS ∧ ¬ strContains content USE_PARAMTURB then
        (pyReplaceOne SST_OLD_IMPORTS SST_NEW_IMPORTS content, true)
      else
        (content, false)
    let step2 :=
      if strContains step1.1 PAT_BETAS then
        (pyReplace PAT_BETAS REPL_BETAS step1.1, true)
      else
        step1
    if step2.2 then
      return writeFileT .sstf90 step2.1 fs1
    else
      return fs1

/-- `patch_turbutils`: warn and skip when the file is missing; otherwise
one-time backup, then replace every hardcoded beta-star expression, writing
only when the pattern was found. -/
def patch_turbutils (fs : FS) : Except Unit FS :=
  if (fs.file .turbutils).isNone then .ok fs
  else do
    let fs1 ← ensureBackup .turbutils fs
    let content ← readFileT .turbutils fs1
    if strContains content PAT_BETAS then
      return writeFileT .turbutils (pyReplace PAT_BETAS REPL_BETAS content) fs1
    else
      return fs1

/-- `main` of `patch_adflow_turb.py`: the five patch steps in order.  An
uncaught exception in one step aborts the whole run (the source has no
try/except around the steps). -/
def patcherMain (fs : FS) : Except Unit FS := do
  let fs1 ← patch_paramturb fs
  let fs2 ← patch_pyf fs1
  let fs3 ← patch_initializeflow fs2
  let fs4 ← patch_sst fs3
  patch_turbutils fs4

/-! ## Concrete states and trees used by the claims -/

/-- A state modelling an unpatched binary in which only `rsacb1` resolved
among the SA slots. -/
def oneBoundState : BridgeState :=
  ⟨fun _ => 0, fun _ => 0, fun sl => decide (sl = SASlot.rsacb1), fun _ => false⟩

/-- `u` cannot begin at any offset inside `w`: every suffix of `w` is
incompatible with `u` (neither is a prefix of the other).  All the overlap
side conditions of the replacement lemmas below are instances of this,
decidable on the concrete patch texts. -/
def NoOverlap (u w : List Char) : Prop :=
  ∀ k, k < w.length →
    (List.drop k w).isPrefixOf u = false ∧ u.isPrefixOf (List.drop k w) = false

/-- A small complete source tree: every target file exists and no backup
does. -/
def fsW : FS := ⟨fun _ => some ['x'], fun _ => none⟩

/-- The tree after the Patcher's first run on `fsW`. -/
def fsW1 : FS := (patcherMain fsW).toOption.getD fsW

/-- A source tree whose `paramTurb.F90` is missing (no backup either),
while every other target file exists. -/
def fsNoParam : FS :=
  ⟨fun t => if t = PatchTarget.paramturb then none else some ['x'],
   fun _ => none⟩

/-- A source tree holding only `paramTurb.F90` and `adflow.pyf`. -/
def fsOnlyCore : FS :=
  ⟨fun t => if t = PatchTarget.paramturb ∨ t = PatchTarget.pyf
      then some ['x'] else none,
   fun _ => none⟩

/-! ## Bridge lemmas -/

@[simp] lemma setSAMem_saBound (s : BridgeState) (sl : SASlot) (v : ℚ) :
    (setSAMem s sl v).saBound = s.saBound := rfl

@[simp] lemma setSAMem_sstBound (s : BridgeState) (sl : SASlot) (v : ℚ) :
    (setSAMem s sl v).sstBound = s.sstBound := rfl

@[simp] lemma setSSTMem_sstBound (s : BridgeState) (sl : SSTSlot) (v : ℚ) :
    (setSSTMem s sl v).sstBound = s.sstBound := rfl

@[simp] lemma setSSTMem_saBound (s : BridgeState) (sl : SSTSlot) (v : ℚ) :
    (setSSTMem s sl v).saBound = s.saBound := rfl

lemma setSAMem_sa_ne (s : BridgeState) {sl x : SASlot} (v : ℚ) (hx : x ≠ sl) :
    (setSAMem s sl v).sa x = s.sa x := by
  simp [setSAMem, hx]

lemma setSSTMem_sst_ne (s : BridgeState) {sl x : SSTSlot} (v : ℚ) (hx : x ≠ sl) :
    (setSSTMem s sl v).sst x = s.sst x := by
  simp [setSSTMem, hx]

lemma saWrite_bind (sl : SASlot) (v : ℚ) (s : BridgeState)
    (f : BridgeState → Except (SASlot × BridgeState) BridgeState) :
    saWrite sl v s >>= f
      = if s.saBound sl then f (setSAMem s sl v) else .error (sl, s) := by
  unfold saWrite
  split <;> rfl

lemma sstWrite_bind (sl : SSTSlot) (v : ℚ) (s : BridgeState)
    (f : BridgeState → Except (SSTSlot × BridgeState) BridgeState) :
    sstWrite sl v s >>= f
      = if s.sstBound sl then f (setSSTMem s sl v) else .error (sl, s) := by
  unfold sstWrite
  split <;> rfl

/-- The batch SA setter is the sequenced run of its source-order writes. -/
lemma set_sa_constants_eq (cb1 cb2 sigma kappa cv1 cw2 cw3 ct3 ct4 : ℚ)
    (s : BridgeState) :
    set_sa_constants cb1 cb2 sigma kappa cv1 cw2 cw3 ct3 ct4 s
      = saWriteSeq (saOrder cb1 cb2 sigma kappa cv1 cw2 cw3 ct3 ct4) s := by
  simp only [set_sa_constants, saWrite_bind, saOrder, saWriteSeq]
  simp only [saWrite]

/-- The batch SST setter is the sequenced run of its source-order writes. -/
lemma set_sst_constants_eq (sstk a1 betas sigk1 sigw1 beta1 sigk2 sigw2 beta2 : ℚ)
    (s : BridgeState) :
    set_sst_constants sstk a1 betas sigk1 sigw1 beta1 sigk2 sigw2 beta2 s
      = sstWriteSeq (sstOrder sstk a1 betas sigk1 sigw1 beta1 sigk2 sigw2 beta2) s := by
  simp only [set_sst_constants, sstWrite_bind, sstOrder, sstWriteSeq]
  simp only [sstWrite]

lemma saWriteSeq_ok {l : List (SASlot × ℚ)} {s s' : BridgeState}
    (h : saWriteSeq l s = .ok s') : s' = applySAWrites l s := by
  induction l generalizing s with
  | nil =>
    simp only [saWriteSeq, Except.ok.injEq] at h
    simpa [applySAWrites] using h.symm
  | cons p rest ih =>
    by_cases hb : s.saBound p.1
    · rw [saWriteSeq, if_pos hb] at h
      simpa [applySAWrites] using ih h
    · rw [saWriteSeq, if_neg hb] at h
      exact absurd h (by simp)

lemma sstWriteSeq_ok {l : List (SSTSlot × ℚ)} {s s' : BridgeState}
    (h : sstWriteSeq l s = .ok s') : s' = applySSTWrites l s := by
  induction l generalizing s with
  | nil =>
    simp only [sstWriteSeq, Except.ok.injEq] at h
    simpa [applySSTWrites] using h.symm
  | cons p rest ih =>
    by_cases hb : s.sstBound p.1
    · rw [sstWriteSeq, if_pos hb] at h
      simpa [applySSTWrites] using ih h
    · rw [sstWriteSeq, if_neg hb] at h
      exact absurd h (by simp)

lemma saWriteSeq_ok_bound {l : List (SASlot × ℚ)} {s s' : BridgeState}
    (h : saWriteSeq l s = .ok s') : ∀ p ∈ l, s.saBound p.1 = true := by
  induction l generalizing s with
  | nil => simp
  | cons p rest ih =>
    by_cases hb : s.saBound p.1
    · rw [saWriteSeq, if_pos hb] at h
      intro q hq
      rcases List.mem_cons.mp hq with hq | hq
      · exact hq ▸ hb
      · simpa using ih h q hq
    · rw [saWriteSeq, if_neg hb] at h
      exact absurd h (by simp)

lemma sstWriteSeq_ok_bound {l : List (SSTSlot × ℚ)} {s s' : BridgeState}
    (h : sstWriteSeq l s = .ok s') : ∀ p ∈ l, s.sstBound p.1 = true := by
  induction l generalizing s with
  | nil => simp
  | cons p rest ih =>
    by_cases hb : s.sstBound p.1
    · rw [sstWriteSeq, if_pos hb] at h
      intro q hq
      rcases List.mem_cons.mp hq with hq | hq
      · exact hq ▸ hb
      · simpa using ih h q hq
    · rw [sstWriteSeq, if_neg hb] at h
      exact absurd h (by simp)

lemma applySAWrites_saBound (l : List (SASlot × ℚ)) (s : BridgeState) :
    (applySAWrites l s).saBound = s.saBound := by
  induction l generalizing s with
  | nil => rfl
  | cons p rest ih => simpa [applySAWrites] using ih (setSAMem s p.1 p.2)

lemma applySSTWrites_sstBound (l : List (SSTSlot × ℚ)) (s : BridgeState) :
    (applySSTWrites l s).sstBound = s.sstBound := by
  induction l generalizing s with
  | nil => rfl
  | cons p rest ih => simpa [applySSTWrites] using ih (setSSTMem s p.1 p.2)

lemma applySAWrites_sa_of_not_mem {l : List (SASlot × ℚ)} {x : SASlot}
    (hx : x ∉ l.map Prod.fst) (s : BridgeState) :
    (applySAWrites l s).sa x = s.sa x := by
  induction l generalizing s with
  | nil => rfl
  | cons p rest ih =>
    simp only [List.map_cons, List.mem_cons, not_or] at hx
    have h1 : applySAWrites (p :: rest) s = applySAWrites rest (setSAMem s p.1 p.2) := by
      simp [applySAWrites]
    rw [h1, ih hx.2, setSAMem_sa_ne s p.2 hx.1]

lemma saWriteSeq_append_error (u : SASlot) (v : ℚ)
    {l rest : List (SASlot × ℚ)} {s : BridgeState}
    (hl : ∀ p ∈ l, s.saBound p.1 = true) (hu : s.saBound u = false) :
    saWriteSeq (l ++ (u, v) :: rest) s = .error (u, applySAWrites l s) := by
  induction l generalizing s with
  | nil => simp [saWriteSeq, hu, applySAWrites]
  | cons p t ih =>
    have hp : s.saBound p.1 = true := hl p (by simp)
    rw [List.cons_append, saWriteSeq, if_pos hp]
    have hl' : ∀ q ∈ t, (setSAMem s p.1 p.2).saBound q.1 = true := by
      intro q hq; simpa using hl q (List.mem_cons_of_mem p hq)
    have hu' : (setSAMem s p.1 p.2).saBound u = false := by simpa using hu
    rw [ih hl' hu']
    simp [applySAWrites]

@[simp] lemma except_bind_ok {ε α β : Type} (a : α) (f : α → Except ε β) :
    (Except.ok a : Except ε α) >>= f = f a := rfl

@[simp] lemma except_bind_error {ε α β : Type} (e : ε) (f : α → Except ε β) :
    (Except.error e : Except ε α) >>= f = Except.error e := rfl

@[simp] lemma except_pure {ε α : Type} (a : α) :
    (pure a : Except ε α) = Except.ok a := rfl

/-! ## Claims about the Coefficient Bridge -/

/-- C1: for every choice of the nine SA parameters (cb1, cb2, sigma, kappa,
cv1, cw2, cw3, ct3, ct4) with kappa and sigma nonzero, immediately after
`set_sa_constants` completes with them, the value `get_sa_constants()`
reports for the derived slot cw1 equals `cb1/kappa^2 + (1+cb2)/sigma`. -/
theorem sa_derived_cw1_consistent (cb1 cb2 sigma kappa cv1 cw2 cw3 ct3 ct4 : ℚ)
    (s s' : BridgeState) (hkappa : kappa ≠ 0) (hsigma : sigma ≠ 0)
    (hset : set_sa_constants cb1 cb2 sigma kappa cv1 cw2 cw3 ct3 ct4 s = .ok s') :
    (get_sa_constants s').map SAConsts.cw1
      = .ok (cb1 / kappa ^ 2 + (1 + cb2) / sigma) := by
  rw [set_sa_constants_eq] at hset
  have hb := saWriteSeq_ok_bound hset
  have hs' := saWriteSeq_ok hset
  subst hs'
  have h1 : s.saBound SASlot.rsacb1 = true := hb (SASlot.rsacb1, cb1) (by simp [saOrder])
  have h2 : s.saBound SASlot.rsacb2 = true := hb (SASlot.rsacb2, cb2) (by simp [saOrder])
  have h3 : s.saBound SASlot.rsacb3 = true := hb (SASlot.rsacb3, sigma) (by simp [saOrder])
  have h4 : s.saBound SASlot.rsak = true := hb (SASlot.rsak, kappa) (by simp [saOrder])
  have h5 : s.saBound SASlot.rsacv1 = true := hb (SASlot.rsacv1, cv1) (by simp [saOrder])
  have h6 : s.saBound SASlot.rsacw2 = true := hb (SASlot.rsacw2, cw2) (by simp [saOrder])
  have h7 : s.saBound SASlot.rsacw3 = true := hb (SASlot.rsacw3, cw3) (by simp [saOrder])
  have h8 : s.saBound SASlot.rsact3 = true := hb (SASlot.rsact3, ct3) (by simp [saOrder])
  have h9 : s.saBound SASlot.rsact4 = true := hb (SASlot.rsact4, ct4) (by simp [saOrder])
  have h10 : s.saBound SASlot.rsacw1 = true :=
    hb (SASlot.rsacw1, cb1 / (kappa * kappa) + (1.0 + cb2) / sigma) (by simp [saOrder])
  simp only [get_sa_constants, saRead, applySAWrites_saBound,
    h1, h2, h3, h4, h5, h6, h7, h8, h9, h10, if_true, except_bind_ok, except_pure]
  simp [applySAWrites, saOrder, setSAMem]
  norm_num [pow_two]
  rfl

/-- Witness for C1 at a concrete input. -/
theorem sa_derived_cw1_consistent_witness :
    (get_sa_constants (applySAWrites (saOrder 1 2 3 4 5 6 7 8 9) boundState)).map
        SAConsts.cw1
      = .ok ((1 : ℚ) / 4 ^ 2 + (1 + 2) / 3) :=
  sa_derived_cw1_consistent 1 2 3 4 5 6 7 8 9 boundState _
    (by norm_num) (by norm_num) rfl

/-- Evaluation of the concrete Harness scenario: the getter reports the nine
written values and cw1 = 181/56. -/
lemma saScenario_eval :
    saScenario = .ok ⟨0.14, 0.65, 0.7, 0.40, 7.0, 181 / 56, 0.055, 2.5, 1.0, 0.4⟩ := by
  have hset : set_sa_constants 0.14 0.65 0.7 0.40 7.0 0.055 2.5 1.0 0.4 boundState
      = .ok (applySAWrites (saOrder 0.14 0.65 0.7 0.40 7.0 0.055 2.5 1.0 0.4) boundState) := by
    rw [set_sa_constants_eq]
    simp [saWriteSeq, saOrder, applySAWrites, boundState, setSAMem]
  unfold saScenario
  rw [hset]
  have hbd : ∀ sl : SASlot, (applySAWrites
      (saOrder 0.14 0.65 0.7 0.40 7.0 0.055 2.5 1.0 0.4) boundState).saBound sl = true := by
    intro sl
    rw [applySAWrites_saBound]
    rfl
  simp only [get_sa_constants, saRead, hbd, if_true, except_bind_ok, except_pure]
  simp [applySAWrites, saOrder, setSAMem]
  norm_num

/-- C2 counterexample: in the concrete scenario
`set_sa_constants(cb1=0.14, cb2=0.65, sigma=0.7, kappa=0.40, cv1=7.0,
cw2=0.055, cw3=2.5, ct3=1.0, ct4=0.4)` the nine independent entries read
back as written, but the derived entry cw1 is exactly `181/56 ≈ 3.2321`,
which is more than `1/20` away from the claimed `3.2857`. -/
theorem sa_scenario_cw1_counterexample :
    saScenario = .ok ⟨0.14, 0.65, 0.7, 0.40, 7.0, 181 / 56, 0.055, 2.5, 1.0, 0.4⟩ ∧
    1 / 20 ≤ |(181 : ℚ) / 56 - 3.2857| := by
  constructor
  · exact saScenario_eval
  · exact le_abs.mpr (Or.inr (by norm_num))

/-- C2 amended: in the concrete scenario, `get_sa_constants()` returns the
nine written independent values and the derived entry
cw1 = 181/56 ≈ 3.2321 (within 1/1000 of 3.2321, not 3.2857). -/
theorem sa_scenario_amended :
    saScenario = .ok ⟨0.14, 0.65, 0.7, 0.40, 7.0, 181 / 56, 0.055, 2.5, 1.0, 0.4⟩ ∧
    |(181 : ℚ) / 56 - 3.2321| < 1 / 1000 := by
  constructor
  · exact saScenario_eval
  · exact abs_sub_lt_iff.mpr ⟨by norm_num, by norm_num⟩

/-- C3: for every parameter tuple, a completed batch set followed by the
getter returns exactly the written values: all nine SST slots read back as
written, and the nine independent SA slots read back as written (with the
derived cw1 recomputed from them). -/
theorem set_then_get_roundtrip :
    (∀ (sstk a1 betas sigk1 sigw1 beta1 sigk2 sigw2 beta2 : ℚ) (s s' : BridgeState),
        set_sst_constants sstk a1 betas sigk1 sigw1 beta1 sigk2 sigw2 beta2 s = .ok s' →
        get_sst_constants s'
          = .ok ⟨sstk, a1, betas, sigk1, sigw1, beta1, sigk2, sigw2, beta2⟩) ∧
    (∀ (cb1 cb2 sigma kappa cv1 cw2 cw3 ct3 ct4 : ℚ) (s s' : BridgeState),
        set_sa_constants cb1 cb2 sigma kappa cv1 cw2 cw3 ct3 ct4 s = .ok s' →
        get_sa_constants s'
          = .ok ⟨cb1, cb2, sigma, kappa, cv1,
                 cb1 / (kappa * kappa) + (1 + cb2) / sigma, cw2, cw3, ct3, ct4⟩) := by
  constructor
  · intro sstk a1 betas sigk1 sigw1 beta1 sigk2 sigw2 beta2 s s' hset
    rw [set_sst_constants_eq] at hset
    have hb := sstWriteSeq_ok_bound hset
    have hs' := sstWriteSeq_ok hset
    subst hs'
    have h1 : s.sstBound SSTSlot.rsstk = true := hb (SSTSlot.rsstk, sstk) (by simp [sstOrder])
    have h2 : s.sstBound SSTSlot.rssta1 = true := hb (SSTSlot.rssta1, a1) (by simp [sstOrder])
    have h3 : s.sstBound SSTSlot.rsstbetas = true :=
      hb (SSTSlot.rsstbetas, betas) (by simp [sstOrder])
    have h4 : s.sstBound SSTSlot.rsstsigk1 = true :=
      hb (SSTSlot.rsstsigk1, sigk1) (by simp [sstOrder])
    have h5 : s.sstBound SSTSlot.rsstsigw1 = true :=
      hb (SSTSlot.rsstsigw1, sigw1) (by simp [sstOrder])
    have h6 : s.sstBound SSTSlot.rsstbeta1 = true :=
      hb (SSTSlot.rsstbeta1, beta1) (by simp [sstOrder])
    have h7 : s.sstBound SSTSlot.rsstsigk2 = true :=
      hb (SSTSlot.rsstsigk2, sigk2) (by simp [sstOrder])
    have h8 : s.sstBound SSTSlot.rsstsigw2 = true :=
      hb (SSTSlot.rsstsigw2, sigw2) (by simp [sstOrder])
    have h9 : s.sstBound SSTSlot.rsstbeta2 = true :=
      hb (SSTSlot.rsstbeta2, beta2) (by simp [sstOrder])
    simp only [get_sst_constants, sstRead, applySSTWrites_sstBound,
      h1, h2, h3, h4, h5, h6, h7, h8, h9, if_true, except_bind_ok, except_pure]
    simp [applySSTWrites, sstOrder, setSSTMem]
  · intro cb1 cb2 sigma kappa cv1 cw2 cw3 ct3 ct4 s s' hset
    rw [set_sa_constants_eq] at hset
    have hb := saWriteSeq_ok_bound hset
    have hs' := saWriteSeq_ok hset
    subst hs'
    have h1 : s.saBound SASlot.rsacb1 = true := hb (SASlot.rsacb1, cb1) (by simp [saOrder])
    have h2 : s.saBound SASlot.rsacb2 = true := hb (SASlot.rsacb2, cb2) (by simp [saOrder])
    have h3 : s.saBound SASlot.rsacb3 = true := hb (SASlot.rsacb3, sigma) (by simp [saOrder])
    have h4 : s.saBound SASlot.rsak = true := hb (SASlot.rsak, kappa) (by simp [saOrder])
    have h5 : s.saBound SASlot.rsacv1 = true := hb (SASlot.rsacv1, cv1) (by simp [saOrder])
    have h6 : s.saBound SASlot.rsacw2 = true := hb (SASlot.rsacw2, cw2) (by simp [saOrder])
    have h7 : s.saBound SASlot.rsacw3 = true := hb (SASlot.rsacw3, cw3) (by simp [saOrder])
    have h8 : s.saBound SASlot.rsact3 = true := hb (SASlot.rsact3, ct3) (by simp [saOrder])
    have h9 : s.saBound SASlot.rsact4 = true := hb (SASlot.rsact4, ct4) (by simp [saOrder])
    have h10 : s.saBound SASlot.rsacw1 = true :=
      hb (SASlot.rsacw1, cb1 / (kappa * kappa) + (1.0 + cb2) / sigma) (by simp [saOrder])
    simp only [get_sa_constants, saRead, applySAWrites_saBound,
      h1, h2, h3, h4, h5, h6, h7, h8, h9, h10, if_true, except_bind_ok, except_pure]
    simp [applySAWrites, saOrder, setSAMem]
    norm_num

/-- Witness for C3 at a concrete input. -/
theorem set_then_get_roundtrip_witness :
    get_sst_constants (applySSTWrites (sstOrder 1 2 3 4 5 6 7 8 9) boundState)
      = .ok ⟨1, 2, 3, 4, 5, 6, 7, 8, 9⟩ :=
  set_then_get_roundtrip.1 1 2 3 4 5 6 7 8 9 boundState _ rfl

/-- C4: for every Bridge state, `set_sa_defaults()` is exactly
`set_sa_constants` with the literature defaults (cb1=0.1355, cb2=0.622,
sigma=2/3, kappa=0.41, cv1=7.1, cw2=0.3, cw3=2.0, ct3=1.2, ct4=0.5), and
`set_sst_defaults()` is exactly `set_sst_constants` with (sstk=0.41,
a1=0.31, betas=0.09, sigk1=0.85, sigw1=0.5, beta1=0.075, sigk2=1.0,
sigw2=0.856, beta2=0.0828). -/
theorem defaults_are_batch_set_with_literature_values :
    (∀ s : BridgeState,
        set_sa_defaults s
          = set_sa_constants 0.1355 0.622 (2 / 3) 0.41 7.1 0.3 2.0 1.2 0.5 s) ∧
    (∀ s : BridgeState,
        set_sst_defaults s
          = set_sst_constants 0.41 0.31 0.09 0.85 0.5 0.075 1.0 0.856 0.0828 s) := by
  constructor
  · intro s
    unfold set_sa_defaults
    norm_num
  · intro s
    rfl

/-- C8: writing a new value into any single one of the nine bound SST slots
leaves the values of the other eight SST slots unchanged. -/
theorem sst_single_write_frame (sl : SSTSlot) (v : ℚ) (s s' : BridgeState)
    (h : sstWrite sl v s = .ok s') :
    ∀ x : SSTSlot, x ≠ sl → s'.sst x = s.sst x := by
  intro x hx
  unfold sstWrite at h
  by_cases hb : s.sstBound sl
  · rw [if_pos hb, Except.ok.injEq] at h
    rw [← h, setSSTMem_sst_ne s v hx]
  · rw [if_neg hb] at h
    exact absurd h (by simp)

/-- Witness for C8 at a concrete input. -/
theorem sst_single_write_frame_witness :
    (setSSTMem boundState SSTSlot.rsstk 5).sst SSTSlot.rssta1
      = boundState.sst SSTSlot.rssta1 :=
  sst_single_write_frame SSTSlot.rsstk 5 boundState _ rfl SSTSlot.rssta1 (by decide)

/-- C10: when the fixed write order of `set_sa_constants` (rsacb1, rsacb2,
rsacb3, rsak, rsacv1, rsacw2, rsacw3, rsact3, rsact4, rsacw1) splits as the
bound writes `done`, then a first unbound slot `u`, the call writes exactly
the `done` writes, raises a `KeyError` at `u` with those earlier writes in
place, and every slot outside `done` is untouched. -/
theorem set_sa_constants_stops_at_first_unbound
    (cb1 cb2 sigma kappa cv1 cw2 cw3 ct3 ct4 : ℚ) (s : BridgeState)
    (done : List (SASlot × ℚ)) (u : SASlot) (v : ℚ) (todo : List (SASlot × ℚ))
    (hsplit : saOrder cb1 cb2 sigma kappa cv1 cw2 cw3 ct3 ct4
      = done ++ (u, v) :: todo)
    (hdone : ∀ p ∈ done, s.saBound p.1 = true) (hu : s.saBound u = false) :
    set_sa_constants cb1 cb2 sigma kappa cv1 cw2 cw3 ct3 ct4 s
      = .error (u, applySAWrites done s) ∧
    ∀ x : SASlot, x ∉ done.map Prod.fst → (applySAWrites done s).sa x = s.sa x := by
  constructor
  · rw [set_sa_constants_eq, hsplit]
    exact saWriteSeq_append_error u v hdone hu
  · intro x hx
    exact applySAWrites_sa_of_not_mem hx s

/-- Witness for C10 at a concrete input: with only `rsacb1` bound, the call
writes `rsacb1` and raises at `rsacb2`. -/
theorem set_sa_constants_stops_at_first_unbound_witness :
    set_sa_constants 1 1 1 1 1 1 1 1 1 oneBoundState
      = .error (SASlot.rsacb2, applySAWrites [(SASlot.rsacb1, 1)] oneBoundState) :=
  (set_sa_constants_stops_at_first_unbound 1 1 1 1 1 1 1 1 1 oneBoundState
    [(SASlot.rsacb1, 1)] SASlot.rsacb2 1 _ rfl
    (by intro p hp; simp only [List.mem_singleton] at hp; subst hp; rfl) rfl).1

/-- Everything `resolveVars` returns is a key of the symbol table. -/
lemma resolveVars_mem_keys {α : Type} (avail : String → Bool)
    (m : List (α × String)) :
    ∀ x ∈ resolveVars avail m, x ∈ m.map Prod.fst := by
  intro x hx
  simp only [resolveVars, List.mem_filterMap] at hx
  rcases hx with ⟨p, hp, hpx⟩
  by_cases h : avail p.2 = true
  · rw [if_pos h, Option.some.injEq] at hpx
    exact hpx ▸ List.mem_map_of_mem Prod.fst hp
  · rw [if_neg h] at hpx
    exact absurd hpx (by simp)

/-- Membership in the resolved set is decided by the availability of the
entry's own symbol alone, provided the table's keys are distinct. -/
lemma mem_resolveVars {α : Type} [DecidableEq α] (avail : String → Bool)
    {m : List (α × String)} (hnd : (m.map Prod.fst).Nodup) {p : α × String}
    (hp : p ∈ m) :
    p.1 ∈ resolveVars avail m ↔ avail p.2 = true := by
  induction m with
  | nil => cases hp
  | cons q rest ih =>
    rw [List.map_cons, List.nodup_cons] at hnd
    rcases List.mem_cons.mp hp with rfl | hp'
    · by_cases h : avail p.2 = true
      · simp [resolveVars, List.filterMap_cons, h]
      · simp only [resolveVars, List.filterMap_cons, h, if_neg, Bool.false_eq_true,
          reduceIte, h, iff_false]
        intro hmem
        exact hnd.1 (resolveVars_mem_keys avail rest p.1 hmem)
    · have hne : p.1 ≠ q.1 := by
        intro hq
        exact hnd.1 (hq ▸ List.mem_map_of_mem Prod.fst hp')
      by_cases h : avail q.2 = true
      · simp only [resolveVars, List.filterMap_cons, h, reduceIte, List.mem_cons]
        rw [← resolveVars]
        constructor
        · intro hor
          rcases hor with hq | hmem
          · exact absurd hq hne
          · exact (ih hnd.2 hp').mp hmem
        · intro ha
          exact Or.inr ((ih hnd.2 hp').mpr ha)
      · simp only [resolveVars, List.filterMap_cons, h, Bool.false_eq_true, reduceIte]
        rw [← resolveVars]
        exact ih hnd.2 hp'

/-- C7: during initialisation, each coefficient symbol resolves or fails on
its own: a slot of either table is in the bound set exactly when its own
symbol exists in the loaded image, regardless of the other symbols, so a
failure for one symbol omits only that coefficient. -/
theorem ensure_init_binds_each_symbol_independently (avail : String → Bool) :
    (∀ p ∈ SA_SYMBOL_MAP,
        (p.1 ∈ resolveVars avail SA_SYMBOL_MAP ↔ avail p.2 = true)) ∧
    (∀ p ∈ SST_SYMBOL_MAP,
        (p.1 ∈ resolveVars avail SST_SYMBOL_MAP ↔ avail p.2 = true)) := by
  constructor
  · intro p hp
    exact mem_resolveVars avail (by decide) hp
  · intro p hp
    exact mem_resolveVars avail (by decide) hp

/-- Witness for C7 at a concrete input: with exactly one symbol available,
the matching slot is bound. -/
theorem ensure_init_binds_each_symbol_independently_witness :
    SASlot.rsacb1 ∈ resolveVars (fun sym => sym == "__paramturb_MOD_rsacb1")
        SA_SYMBOL_MAP
      ↔ (("__paramturb_MOD_rsacb1" : String) == "__paramturb_MOD_rsacb1") = true :=
  (ensure_init_binds_each_symbol_independently
      (fun sym => sym == "__paramturb_MOD_rsacb1")).1
    (SASlot.rsacb1, "__paramturb_MOD_rsacb1") (by decide)

/-- C9: every entry of the fixed SA and SST symbol tables is the fixed
prefix `__`, the lower-cased module name `paramturb`, the infix `_MOD_`, and
the lower-cased variable name, concatenated in that order. -/
theorem symbol_tables_follow_mangling_rule :
    (∀ p ∈ SA_SYMBOL_MAP, p.2 = gfortranMangle "paramturb" (saName p.1)) ∧
    (∀ p ∈ SST_SYMBOL_MAP, p.2 = gfortranMangle "paramturb" (sstName p.1)) := by
  constructor
  · decide
  · decide

/-- Witness for C9 at a concrete entry. -/
theorem symbol_tables_follow_mangling_rule_witness :
    "__paramturb_MOD_rsacb1" = gfortranMangle "paramturb" (saName SASlot.rsacb1) :=
  symbol_tables_follow_mangling_rule.1
    (SASlot.rsacb1, "__paramturb_MOD_rsacb1") (by decide)

/-! ## String lemmas for the Patcher -/

lemma NoOverlap.not_sfx_pre {u w : List Char} (h : NoOverlap u w) {k : Nat}
    (hk : k < w.length) : ¬ (List.drop k w <+: u) := by
  intro hp
  have hx := List.isPrefixOf_iff_prefix.mpr hp
  rw [(h k hk).1] at hx
  exact absurd hx (by decide)

lemma NoOverlap.not_pre_sfx {u w : List Char} (h : NoOverlap u w) {k : Nat}
    (hk : k < w.length) : ¬ (u <+: List.drop k w) := by
  intro hp
  have hx := List.isPrefixOf_iff_prefix.mpr hp
  rw [(h k hk).2] at hx
  exact absurd hx (by decide)

/-- If `u` cannot begin inside `w`, then `u` is not a prefix of any suffix
of `w` extended by anything. -/
lemma NoOverlap.not_prefix_drop_append {u w rest : List Char} (h : NoOverlap u w)
    {k : Nat} (hk : k < w.length) : ¬ (u <+: List.drop k w ++ rest) := by
  intro hp
  rcases List.prefix_or_prefix_of_prefix hp (List.prefix_append _ _) with h1 | h1
  · exact h.not_pre_sfx hk h1
  · exact h.not_sfx_pre hk h1

lemma strContains_iff {s pat : List Char} : strContains s pat = true ↔ pat <:+: s := by
  induction s with
  | nil =>
    simp [strContains, List.isEmpty_iff, List.infix_nil]
  | cons c rest ih =>
    rw [strContains, Bool.or_eq_true, List.isPrefixOf_iff_prefix, ih,
      List.infix_cons_iff]

lemma infix_iff_exists_drop {l m : List Char} :
    l <:+: m ↔ ∃ n, l <+: List.drop n m := by
  constructor
  · rintro ⟨s, t, rfl⟩
    refine ⟨s.length, ?_⟩
    rw [List.append_assoc, List.drop_left]
    exact List.prefix_append l t
  · rintro ⟨n, t, ht⟩
    exact ⟨m.take n, t, by rw [List.append_assoc, ht, List.take_append_drop]⟩

lemma drop_append_ge {l₁ l₂ : List Char} {n : Nat} (h : l₁.length ≤ n) :
    (l₁ ++ l₂).drop n = l₂.drop (n - l₁.length) := by
  rw [List.drop_append_eq_append_drop, List.drop_eq_nil_of_le h, List.nil_append]

lemma infix_of_infix_drop {u rest : List Char} {m : Nat}
    (h : u <:+: List.drop m rest) : u <:+: rest :=
  h.trans (List.drop_suffix m rest).isInfix

/-- A nonempty `pat` splits `pyReplace` along its first-occurrence branch. -/
lemma pyReplace_cons_pos {pat repl : List Char} {c : Char} {rest : List Char}
    (hpat : pat ≠ []) (hpre : pat <+: c :: rest) :
    pyReplace pat repl (c :: rest)
      = repl ++ pyReplace pat repl (List.drop (pat.length - 1) rest) := by
  rw [pyReplace, if_pos ⟨hpat, List.isPrefixOf_iff_prefix.mpr hpre⟩]

lemma pyReplace_cons_neg {pat repl : List Char} {c : Char} {rest : List Char}
    (h : ¬ (pat ≠ [] ∧ pat <+: c :: rest)) :
    pyReplace pat repl (c :: rest) = c :: pyReplace pat repl rest := by
  rw [pyReplace, if_neg]
  intro hc
  exact h ⟨hc.1, List.isPrefixOf_iff_prefix.mp hc.2⟩

lemma not_prefix_append_of_both {x w rest : List Char}
    (h1 : ¬ (x <+: w)) (h2 : ¬ (w <+: x)) : ¬ (x <+: w ++ rest) := by
  intro hp
  rcases List.prefix_or_prefix_of_prefix hp (List.prefix_append _ _) with h | h
  · exact h1 h
  · exact h2 h

/-- Replacement never creates a new match for a suffix of `u`: if
`u.drop k` was no prefix of `s`, it is no prefix of the replaced text,
provided `repl` cannot begin inside `u`. -/
lemma drop_not_prefix_pyReplace {pat repl u : List Char} (hru : NoOverlap repl u) :
    ∀ s k, k < u.length → ¬ (List.drop k u <+: s) →
      ¬ (List.drop k u <+: pyReplace pat repl s) := by
  intro s
  induction s using pyReplace.induct pat repl with
  | case1 =>
    intro k hk hns
    rw [pyReplace]
    exact hns
  | case2 c rest h ih =>
    intro k hk hns
    rcases h with ⟨hpat, hpreb⟩
    rw [pyReplace_cons_pos hpat (List.isPrefixOf_iff_prefix.mp hpreb)]
    exact not_prefix_append_of_both (hru.not_sfx_pre hk) (hru.not_pre_sfx hk)
  | case3 c rest h ih =>
    intro k hk hns
    rw [pyReplace_cons_neg (fun hc => h ⟨hc.1, List.isPrefixOf_iff_prefix.mpr hc.2⟩)]
    intro hp
    rw [List.drop_eq_getElem_cons hk] at hp hns
    rcases List.cons_prefix_cons.mp hp with ⟨hck, htail⟩
    have hns' : ¬ (List.drop (k + 1) u <+: rest) :=
      fun hr => hns (List.cons_prefix_cons.mpr ⟨hck, hr⟩)
    by_cases hk1 : k + 1 < u.length
    · exact ih (k + 1) hk1 hns' htail
    · have hdrop : List.drop (k + 1) u = [] := List.drop_eq_nil_of_le (by omega)
      exact hns' (hdrop ▸ List.nil_prefix)

/-- Replacement preserves a match for a suffix of `u` in place, provided
`pat` cannot begin inside `u`. -/
lemma drop_prefix_pyReplace {pat repl u : List Char} (hpu : NoOverlap pat u) :
    ∀ s k, k < u.length → List.drop k u <+: s →
      List.drop k u <+: pyReplace pat repl s := by
  intro s
  induction s using pyReplace.induct pat repl with
  | case1 =>
    intro k hk hp
    rwa [pyReplace]
  | case2 c rest h ih =>
    intro k hk hp
    rcases h with ⟨hpat, hpreb⟩
    rcases List.prefix_or_prefix_of_prefix hp (List.isPrefixOf_iff_prefix.mp hpreb)
      with h1 | h1
    · exact absurd h1 (hpu.not_sfx_pre hk)
    · exact absurd h1 (hpu.not_pre_sfx hk)
  | case3 c rest h ih =>
    intro k hk hp
    rw [pyReplace_cons_neg (fun hc => h ⟨hc.1, List.isPrefixOf_iff_prefix.mpr hc.2⟩)]
    rw [List.drop_eq_getElem_cons hk] at hp ⊢
    rcases List.cons_prefix_cons.mp hp with ⟨hck, htail⟩
    by_cases hk1 : k + 1 < u.length
    · exact List.cons_prefix_cons.mpr ⟨hck, ih (k + 1) hk1 htail⟩
    · have hdrop : List.drop (k + 1) u = [] := List.drop_eq_nil_of_le (by omega)
      exact List.cons_prefix_cons.mpr ⟨hck, hdrop ▸ List.nil_prefix⟩

/-- After replacing every occurrence, `pat` no longer occurs, provided
`pat` cannot begin inside `repl` and `repl` cannot begin inside `pat`. -/
lemma pat_not_infix_pyReplace {pat repl : List Char} (hpat : pat ≠ [])
    (hpr : NoOverlap pat repl) (hrp : NoOverlap repl pat) :
    ∀ s, ¬ (pat <:+: pyReplace pat repl s) := by
  intro s
  induction s using pyReplace.induct pat repl with
  | case1 =>
    rw [pyReplace]
    intro hinf
    exact hpat (List.eq_nil_of_infix_nil hinf)
  | case2 c rest h ih =>
    rcases h with ⟨_, hpreb⟩
    rw [pyReplace_cons_pos hpat (List.isPrefixOf_iff_prefix.mp hpreb)]
    intro hinf
    rcases infix_iff_exists_drop.mp hinf with ⟨n, hn⟩
    by_cases hnr : n < repl.length
    · rw [List.drop_append_of_le_length (by omega)] at hn
      exact hpr.not_prefix_drop_append hnr hn
    · rw [drop_append_ge (by omega)] at hn
      exact ih (infix_iff_exists_drop.mpr ⟨_, hn⟩)
  | case3 c rest h ih =>
    have hnp : ¬ (pat <+: c :: rest) :=
      fun hp => h ⟨hpat, List.isPrefixOf_iff_prefix.mpr hp⟩
    rw [pyReplace_cons_neg (fun hc => h ⟨hc.1, List.isPrefixOf_iff_prefix.mpr hc.2⟩)]
    intro hinf
    rcases List.infix_cons_iff.mp hinf with hp | hinf'
    · cases pat with
      | nil => exact hpat rfl
      | cons p0 ps =>
        rcases List.cons_prefix_cons.mp hp with ⟨hck, htail⟩
        have hnt : ¬ (ps <+: rest) :=
          fun hr => hnp (List.cons_prefix_cons.mpr ⟨hck, hr⟩)
        cases ps with
        | nil => exact hnp (List.cons_prefix_cons.mpr ⟨hck, List.nil_prefix⟩)
        | cons q qs =>
          exact drop_not_prefix_pyReplace hrp rest 1
            (by simp only [List.length_cons]; omega) hnt htail
    · exact ih hinf'

/-- Replacement introduces no occurrence of `u` that was not there,
provided `u` cannot begin inside `repl` and `repl` cannot begin inside
`u`. -/
lemma not_infix_pyReplace {pat repl u : List Char}
    (hur : NoOverlap u repl) (hru : NoOverlap repl u) :
    ∀ s, ¬ (u <:+: s) → ¬ (u <:+: pyReplace pat repl s) := by
  intro s
  induction s using pyReplace.induct pat repl with
  | case1 =>
    intro hns
    rwa [pyReplace]
  | case2 c rest h ih =>
    intro hns hinf
    rcases h with ⟨hpat, hpreb⟩
    rw [pyReplace_cons_pos hpat (List.isPrefixOf_iff_prefix.mp hpreb)] at hinf
    rcases infix_iff_exists_drop.mp hinf with ⟨n, hn⟩
    by_cases hnr : n < repl.length
    · rw [List.drop_append_of_le_length (by omega)] at hn
      exact hur.not_prefix_drop_append hnr hn
    · rw [drop_append_ge (by omega)] at hn
      exact ih
        (fun hu => hns (List.infix_cons_iff.mpr (Or.inr (infix_of_infix_drop hu))))
        (infix_iff_exists_drop.mpr ⟨_, hn⟩)
  | case3 c rest h ih =>
    intro hns hinf
    rw [pyReplace_cons_neg (fun hc => h ⟨hc.1, List.isPrefixOf_iff_prefix.mpr hc.2⟩)]
      at hinf
    have hnrest : ¬ (u <:+: rest) :=
      fun hr => hns (List.infix_cons_iff.mpr (Or.inr hr))
    rcases List.infix_cons_iff.mp hinf with hp | hinf'
    · cases u with
      | nil => exact hns ⟨[], c :: rest, rfl⟩
      | cons u0 us =>
        rcases List.cons_prefix_cons.mp hp with ⟨hck, htail⟩
        have hnp : ¬ (u0 :: us <+: c :: rest) := fun hpp => hns hpp.isInfix
        have hnt : ¬ (us <+: rest) :=
          fun hr => hnp (List.cons_prefix_cons.mpr ⟨hck, hr⟩)
        cases us with
        | nil => exact hnp (List.cons_prefix_cons.mpr ⟨hck, List.nil_prefix⟩)
        | cons q qs =>
          exact drop_not_prefix_pyReplace hru rest 1
            (by simp only [List.length_cons]; omega) hnt htail
    · exact ih hnrest hinf'

/-- Replacement preserves every occurrence of `u`, provided `u` cannot
begin inside `pat` and `pat` cannot begin inside `u` (the occurrences of
`u` and of `pat` are disjoint). -/
lemma pyReplace_keeps_occurrence {pat repl u : List Char}
    (hup : NoOverlap u pat) (hpu : NoOverlap pat u) :
    ∀ s, u <:+: s → u <:+: pyReplace pat repl s := by
  intro s
  induction s using pyReplace.induct pat repl with
  | case1 =>
    intro h
    rwa [pyReplace]
  | case2 c rest h ih =>
    intro hinf
    rcases h with ⟨hpat, hpreb⟩
    have hpre := List.isPrefixOf_iff_prefix.mp hpreb
    rw [pyReplace_cons_pos hpat hpre]
    rcases hpre with ⟨tail, htail⟩
    rcases infix_iff_exists_drop.mp hinf with ⟨n, hn⟩
    by_cases hnp : n < pat.length
    · rw [← htail, List.drop_append_of_le_length (by omega)] at hn
      exact absurd hn (hup.not_prefix_drop_append hnp)
    · rw [← htail, drop_append_ge (by omega)] at hn
      have hlen : pat.length - 1 + 1 = pat.length :=
        Nat.succ_pred_eq_of_pos (List.length_pos.mpr hpat)
      have htl : tail = List.drop (pat.length - 1) rest := by
        have h2 := congrArg (List.drop pat.length) htail
        rw [List.drop_left] at h2
        rw [h2, ← hlen, List.drop_succ_cons]
        simp
      have hut : u <:+: List.drop (pat.length - 1) rest := by
        rw [← htl]
        exact infix_iff_exists_drop.mpr ⟨_, hn⟩
      exact (ih hut).trans (List.suffix_append repl _).isInfix
  | case3 c rest h ih =>
    intro hinf
    rw [pyReplace_cons_neg (fun hc => h ⟨hc.1, List.isPrefixOf_iff_prefix.mpr hc.2⟩)]
    rcases List.infix_cons_iff.mp hinf with hp | hinf'
    · cases u with
      | nil => exact ⟨[], _, rfl⟩
      | cons u0 us =>
        rcases List.cons_prefix_cons.mp hp with ⟨hck, htail⟩
        refine (List.cons_prefix_cons.mpr ⟨hck, ?_⟩ :
          u0 :: us <+: c :: pyReplace pat repl rest).isInfix
        cases us with
        | nil => exact List.nil_prefix
        | cons q qs =>
          exact drop_prefix_pyReplace hpu rest 1
            (by simp only [List.length_cons]; omega) htail
    · exact List.infix_cons_iff.mpr (Or.inr (ih hinf'))

/-- When `pat` occurs, the replacement text occurs in the result. -/
lemma pyReplace_has_repl {pat repl : List Char} (hpat : pat ≠ []) :
    ∀ s, pat <:+: s → repl <:+: pyReplace pat repl s := by
  intro s
  induction s using pyReplace.induct pat repl with
  | case1 =>
    intro h
    exact absurd (List.eq_nil_of_infix_nil h) hpat
  | case2 c rest h ih =>
    intro _
    rcases h with ⟨_, hpreb⟩
    rw [pyReplace_cons_pos hpat (List.isPrefixOf_iff_prefix.mp hpreb)]
    exact (List.prefix_append repl _).isInfix
  | case3 c rest h ih =>
    intro hinf
    rw [pyReplace_cons_neg (fun hc => h ⟨hc.1, List.isPrefixOf_iff_prefix.mpr hc.2⟩)]
    rcases List.infix_cons_iff.mp hinf with hp | hinf'
    · exact absurd hp (fun hpp => h ⟨hpat, List.isPrefixOf_iff_prefix.mpr hpp⟩)
    · exact List.infix_cons_iff.mpr (Or.inr (ih hinf'))

/-- When `pat` occurs, the replacement text occurs in the result of the
one-count replacement. -/
lemma pyReplaceOne_has_repl {pat repl : List Char} (hpat : pat ≠ []) :
    ∀ s, pat <:+: s → repl <:+: pyReplaceOne pat repl s := by
  intro s
  induction s with
  | nil =>
    intro h
    exact absurd (List.eq_nil_of_infix_nil h) hpat
  | cons c rest ih =>
    intro hinf
    by_cases hc : pat ≠ [] ∧ pat.isPrefixOf (c :: rest) = true
    · rw [pyReplaceOne, if_pos hc]
      exact (List.prefix_append repl _).isInfix
    · rw [pyReplaceOne, if_neg hc]
      rcases List.infix_cons_iff.mp hinf with hp | hinf'
      · exact absurd hp (fun hpp => hc ⟨hpat, List.isPrefixOf_iff_prefix.mpr hpp⟩)
      · exact List.infix_cons_iff.mpr (Or.inr (ih hinf'))

/-! ## Filesystem lemmas -/

lemma FS.ext' {a b : FS} (hf : ∀ t, a.file t = b.file t)
    (hb : ∀ t, a.bak t = b.bak t) : a = b := by
  cases a
  cases b
  simp only [FS.mk.injEq]
  exact ⟨funext hf, funext hb⟩

@[simp] lemma writeFileT_bak (t : PatchTarget) (c : List Char) (fs : FS) :
    (writeFileT t c fs).bak = fs.bak := rfl

@[simp] lemma writeFileT_file_self (t : PatchTarget) (c : List Char) (fs : FS) :
    (writeFileT t c fs).file t = some c := by
  simp [writeFileT]

lemma writeFileT_file_ne {u t : PatchTarget} (hu : u ≠ t) (c : List Char) (fs : FS) :
    (writeFileT t c fs).file u = fs.file u := by
  simp [writeFileT, hu]

lemma writeFileT_self {t : PatchTarget} {c : List Char} {fs : FS}
    (h : fs.file t = some c) : writeFileT t c fs = fs := by
  refine FS.ext' (fun u => ?_) (fun u => rfl)
  by_cases hu : u = t
  · subst hu
    rw [writeFileT_file_self, h]
  · exact writeFileT_file_ne hu c fs

lemma ensureBackup_ok_cases {t : PatchTarget} {fs fs' : FS}
    (h : ensureBackup t fs = .ok fs') :
    fs'.file = fs.file ∧ (fs'.bak t).isSome = true ∧
    ∀ u, u ≠ t → fs'.bak u = fs.bak u := by
  unfold ensureBackup at h
  by_cases hb : (fs.bak t).isSome = true
  · rw [if_pos hb, Except.ok.injEq] at h
    subst h
    exact ⟨rfl, hb, fun u _ => rfl⟩
  · rw [if_neg hb] at h
    unfold copyToBak at h
    cases hf : fs.file t with
    | none =>
      rw [hf] at h
      exact absurd h (by simp)
    | some c =>
      rw [hf, Except.ok.injEq] at h
      subst h
      exact ⟨rfl, by simp, fun u hu => by simp [hu]⟩

lemma ensureBackup_of_isSome {t : PatchTarget} {fs : FS}
    (h : (fs.bak t).isSome = true) : ensureBackup t fs = .ok fs := by
  unfold ensureBackup
  rw [if_pos h]

lemma readFileT_ok {t : PatchTarget} {fs : FS} {c : List Char}
    (h : readFileT t fs = .ok c) : fs.file t = some c := by
  unfold readFileT at h
  cases hf : fs.file t with
  | none =>
    rw [hf] at h
    exact absurd h (by simp)
  | some c' =>
    rw [hf] at h
    simp only [Except.ok.injEq] at h
    rw [h]

lemma readFileT_of_some {t : PatchTarget} {fs : FS} {c : List Char}
    (h : fs.file t = some c) : readFileT t fs = .ok c := by
  unfold readFileT
  rw [h]

/-! ## Overlap facts about the concrete patch texts (all by computation) -/

lemma noov_pat_repl : NoOverlap PAT_BETAS REPL_BETAS := by
  unfold NoOverlap
  decide

lemma noov_repl_pat : NoOverlap REPL_BETAS PAT_BETAS := by
  unfold NoOverlap
  decide

lemma noov_use_pat : NoOverlap USE_PARAMTURB PAT_BETAS := by
  unfold NoOverlap
  decide

lemma noov_pat_use : NoOverlap PAT_BETAS USE_PARAMTURB := by
  unfold NoOverlap
  decide

set_option maxRecDepth 4000 in
lemma noov_old_repl : NoOverlap SST_OLD_IMPORTS REPL_BETAS := by
  unfold NoOverlap
  decide

set_option maxRecDepth 4000 in
lemma noov_repl_old : NoOverlap REPL_BETAS SST_OLD_IMPORTS := by
  unfold NoOverlap
  decide

set_option maxRecDepth 4000 in
lemma use_in_new_imports : strContains SST_NEW_IMPORTS USE_PARAMTURB = true := by
  decide

set_option maxRecDepth 10000 in
lemma module_in_pyf_block : strContains PYF_BLOCK MODULE_PARAMTURB = true := by
  decide

lemma pyLower_module : pyLower MODULE_PARAMTURB = MODULE_PARAMTURB := by
  decide

lemma pat_betas_ne_nil : PAT_BETAS ≠ [] := by decide

lemma pyf_marker_ne_nil : PYF_MARKER ≠ [] := by decide

lemma old_imports_ne_nil : SST_OLD_IMPORTS ≠ [] := by decide

/-! ## Per-step behaviour of the Patcher -/

lemma patch_paramturb_ok {fs fs' : FS} (h : patch_paramturb fs = .ok fs') :
    fs'.file .paramturb = some PARAMTURB_NEW ∧
    (fs'.bak .paramturb).isSome = true ∧
    (∀ u, u ≠ PatchTarget.paramturb → fs'.file u = fs.file u ∧ fs'.bak u = fs.bak u) := by
  unfold patch_paramturb at h
  cases he : ensureBackup .paramturb fs with
  | error e =>
    rw [he] at h
    exact absurd h (by simp)
  | ok fs1 =>
    rw [he] at h
    simp only [except_bind_ok, except_pure, Except.ok.injEq] at h
    subst h
    obtain ⟨hfile, hsome, hbak⟩ := ensureBackup_ok_cases he
    refine ⟨by simp, by simp [hsome], fun u hu => ⟨?_, ?_⟩⟩
    · rw [writeFileT_file_ne hu, hfile]
    · rw [writeFileT_bak, hbak u hu]

lemma patch_paramturb_fix {fs : FS} (h1 : fs.file .paramturb = some PARAMTURB_NEW)
    (h2 : (fs.bak .paramturb).isSome = true) : patch_paramturb fs = .ok fs := by
  unfold patch_paramturb
  rw [ensureBackup_of_isSome h2]
  simp only [except_bind_ok, except_pure, Except.ok.injEq]
  exact writeFileT_self h1

/-- After a successful `patch_pyf`, the written interface block makes the
lower-cased file contain `module paramturb`. -/
lemma pyf_patched_has_marker {content : List Char}
    (hm : strContains content PYF_MARKER = true) :
    strContains
      (pyLower (pyReplace PYF_MARKER (PYF_MARKER ++ '\n' :: PYF_BLOCK) content))
      MODULE_PARAMTURB = true := by
  rw [strContains_iff]
  have h1 : (PYF_MARKER ++ '\n' :: PYF_BLOCK) <:+:
      pyReplace PYF_MARKER (PYF_MARKER ++ '\n' :: PYF_BLOCK) content :=
    pyReplace_has_repl pyf_marker_ne_nil content (strContains_iff.mp hm)
  have h2 : MODULE_PARAMTURB <:+: PYF_BLOCK := strContains_iff.mp module_in_pyf_block
  have h3 : MODULE_PARAMTURB <:+: (PYF_MARKER ++ '\n' :: PYF_BLOCK) :=
    h2.trans ((List.suffix_cons '\n' PYF_BLOCK).trans
      (List.suffix_append PYF_MARKER _)).isInfix
  have h4 := (h3.trans h1).map Char.toLower
  rw [← pyLower_module]
  exact h4

lemma patch_pyf_ok {fs fs' : FS} (h : patch_pyf fs = .ok fs') :
    (fs'.bak .pyf).isSome = true ∧
    (∀ u, u ≠ PatchTarget.pyf → fs'.file u = fs.file u ∧ fs'.bak u = fs.bak u) ∧
    (∃ y, fs'.file .pyf = some y ∧
      (strContains (pyLower y) MODULE_PARAMTURB = true ∨
       strContains y PYF_MARKER = false)) := by
  unfold patch_pyf at h
  cases he : ensureBackup .pyf fs with
  | error e =>
    rw [he] at h
    exact absurd h (by simp)
  | ok fs1 =>
    rw [he] at h
    obtain ⟨hfile, hsome, hbak⟩ := ensureBackup_ok_cases he
    simp only [except_bind_ok] at h
    cases hr : readFileT .pyf fs1 with
    | error e =>
      rw [hr] at h
      exact absurd h (by simp)
    | ok content =>
      rw [hr] at h
      simp only [except_bind_ok] at h
      have hcontent : fs1.file .pyf = some content := readFileT_ok hr
      by_cases hc1 : strContains (pyLower content) MODULE_PARAMTURB = true
      · rw [if_pos hc1] at h
        simp only [except_pure, Except.ok.injEq] at h
        subst h
        exact ⟨hsome, fun u hu => ⟨by rw [hfile], hbak u hu⟩,
          ⟨content, hcontent, Or.inl hc1⟩⟩
      · rw [if_neg hc1] at h
        by_cases hc2 : strContains content PYF_MARKER = true
        · rw [if_neg (by simp [hc2])] at h
          simp only [except_pure, Except.ok.injEq] at h
          subst h
          refine ⟨by simp [hsome], fun u hu => ⟨?_, by rw [writeFileT_bak, hbak u hu]⟩,
            ⟨_, writeFileT_file_self _ _ _, Or.inl (pyf_patched_has_marker hc2)⟩⟩
          rw [writeFileT_file_ne hu, hfile]
        · rw [if_pos (by simpa using hc2)] at h
          simp only [except_pure, Except.ok.injEq] at h
          subst h
          exact ⟨hsome, fun u hu => ⟨by rw [hfile], hbak u hu⟩,
            ⟨content, hcontent, Or.inr (by simpa using hc2)⟩⟩

lemma patch_pyf_fix {fs : FS} (hb : (fs.bak .pyf).isSome = true)
    {y : List Char} (hf : fs.file .pyf = some y)
    (hy : strContains (pyLower y) MODULE_PARAMTURB = true ∨
          strContains y PYF_MARKER = false) :
    patch_pyf fs = .ok fs := by
  unfold patch_pyf
  rw [ensureBackup_of_isSome hb]
  simp only [except_bind_ok]
  rw [readFileT_of_some hf]
  simp only [except_bind_ok]
  by_cases hc1 : strContains (pyLower y) MODULE_PARAMTURB = true
  · rw [if_pos hc1]
    rfl
  · have hy2 : strContains y PYF_MARKER = false := hy.resolve_left hc1
    rw [if_neg hc1, if_pos (by simp [hy2])]
    rfl

lemma patch_initializeflow_ok {fs fs' : FS} (h : patch_initializeflow fs = .ok fs') :
    (∀ u, u ≠ PatchTarget.initflow → fs'.file u = fs.file u ∧ fs'.bak u = fs.bak u) ∧
    fs'.file .initflow = fs.file .initflow ∧
    (fs.file .initflow = none → fs' = fs) ∧
    (fs.file .initflow ≠ none → (fs'.bak .initflow).isSome = true) := by
  unfold patch_initializeflow at h
  by_cases hn : (fs.file .initflow).isNone = true
  · rw [if_pos hn, Except.ok.injEq] at h
    subst h
    exact ⟨fun u _ => ⟨rfl, rfl⟩, rfl, fun _ => rfl,
      fun hne => absurd (Option.isNone_iff_eq_none.mp hn) hne⟩
  · rw [if_neg hn] at h
    cases he : ensureBackup .initflow fs with
    | error e =>
      rw [he] at h
      exact absurd h (by simp)
    | ok fs1 =>
      rw [he] at h
      simp only [except_bind_ok] at h
      cases hr : readFileT .initflow fs1 with
      | error e =>
        rw [hr] at h
        exact absurd h (by simp)
      | ok content =>
        rw [hr] at h
        simp only [except_bind_ok, except_pure, Except.ok.injEq] at h
        subst h
        obtain ⟨hfile, hsome, hbak⟩ := ensureBackup_ok_cases he
        exact ⟨fun u hu => ⟨by rw [hfile], hbak u hu⟩, by rw [hfile],
          fun h0 => absurd (Option.isNone_iff_eq_none.mpr h0) hn, fun _ => hsome⟩

lemma patch_initializeflow_fix {fs : FS}
    (h : fs.file .initflow = none ∨ (fs.bak .initflow).isSome = true) :
    patch_initializeflow fs = .ok fs := by
  unfold patch_initializeflow
  by_cases hn : (fs.file .initflow).isNone = true
  · rw [if_pos hn]
  · have hb : (fs.bak .initflow).isSome = true :=
      h.resolve_left (fun h0 => hn (Option.isNone_iff_eq_none.mpr h0))
    rw [if_neg hn, ensureBackup_of_isSome hb]
    simp only [except_bind_ok]
    cases hf : fs.file .initflow with
    | none => exact absurd (Option.isNone_iff_eq_none.mpr hf) hn
    | some c =>
      rw [readFileT_of_some hf]
      rfl

lemma strContains_eq_false_iff {s pat : List Char} :
    strContains s pat = false ↔ ¬ (pat <:+: s) := by
  constructor
  · intro h hc
    rw [← strContains_iff, h] at hc
    exact absurd hc (by decide)
  · intro h
    cases hb : strContains s pat
    · rfl
    · exact absurd (strContains_iff.mp hb) h

/-- The content invariant `patch_sst` establishes: the use-line present or
the unpatched import block absent, and no hardcoded beta-star left. -/
lemma sst_post_of_write (x : List Char)
    (hA : strContains x SST_OLD_IMPORTS = true ∧ ¬ strContains x USE_PARAMTURB = true)
    {y : List Char}
    (hy : y = pyReplace PAT_BETAS REPL_BETAS (pyReplaceOne SST_OLD_IMPORTS SST_NEW_IMPORTS x)
        ∨ y = pyReplaceOne SST_OLD_IMPORTS SST_NEW_IMPORTS x
          ∧ strContains (pyReplaceOne SST_OLD_IMPORTS SST_NEW_IMPORTS x) PAT_BETAS = false) :
    (strContains y USE_PARAMTURB = true ∨ strContains y SST_OLD_IMPORTS = false) ∧
    strContains y PAT_BETAS = false := by
  have hx1 : USE_PARAMTURB <:+: pyReplaceOne SST_OLD_IMPORTS SST_NEW_IMPORTS x :=
    (strContains_iff.mp use_in_new_imports).trans
      (pyReplaceOne_has_repl old_imports_ne_nil x (strContains_iff.mp hA.1))
  rcases hy with rfl | ⟨rfl, hnp⟩
  · constructor
    · exact Or.inl (strContains_iff.mpr
        (pyReplace_keeps_occurrence noov_use_pat noov_pat_use _ hx1))
    · exact strContains_eq_false_iff.mpr
        (pat_not_infix_pyReplace pat_betas_ne_nil noov_pat_repl noov_repl_pat _)
  · exact ⟨Or.inl (strContains_iff.mpr hx1), hnp⟩

lemma sst_post_of_write_noA (x : List Char)
    (hA : ¬ (strContains x SST_OLD_IMPORTS = true ∧ ¬ strContains x USE_PARAMTURB = true))
    (hB : strContains x PAT_BETAS = true) :
    (strContains (pyReplace PAT_BETAS REPL_BETAS x) USE_PARAMTURB = true ∨
      strContains (pyReplace PAT_BETAS REPL_BETAS x) SST_OLD_IMPORTS = false) ∧
    strContains (pyReplace PAT_BETAS REPL_BETAS x) PAT_BETAS = false := by
  constructor
  · by_cases hu : strContains x USE_PARAMTURB = true
    · exact Or.inl (strContains_iff.mpr
        (pyReplace_keeps_occurrence noov_use_pat noov_pat_use _ (strContains_iff.mp hu)))
    · have hold : strContains x SST_OLD_IMPORTS = false := by
        cases ho : strContains x SST_OLD_IMPORTS
        · rfl
        · exact absurd ⟨ho, hu⟩ hA
      exact Or.inr (strContains_eq_false_iff.mpr
        (not_infix_pyReplace noov_old_repl noov_repl_old _
          (strContains_eq_false_iff.mp hold)))
  · exact strContains_eq_false_iff.mpr
      (pat_not_infix_pyReplace pat_betas_ne_nil noov_pat_repl noov_repl_pat _)

lemma patch_sst_ok {fs fs' : FS} (h : patch_sst fs = .ok fs') :
    (∀ u, u ≠ PatchTarget.sstf90 → fs'.file u = fs.file u ∧ fs'.bak u = fs.bak u) ∧
    (fs'.file .sstf90 = none ∨
      ∃ y, fs'.file .sstf90 = some y ∧ (fs'.bak .sstf90).isSome = true ∧
        (strContains y USE_PARAMTURB = true ∨ strContains y SST_OLD_IMPORTS = false) ∧
        strContains y PAT_BETAS = false) := by
  unfold patch_sst at h
  by_cases hn : (fs.file .sstf90).isNone = true
  · rw [if_pos hn, Except.ok.injEq] at h
    subst h
    exact ⟨fun u _ => ⟨rfl, rfl⟩, Or.inl (Option.isNone_iff_eq_none.mp hn)⟩
  · rw [if_neg hn] at h
    cases he : ensureBackup .sstf90 fs with
    | error e =>
      rw [he] at h
      exact absurd h (by simp)
    | ok fs1 =>
      rw [he] at h
      obtain ⟨hfile, hsome, hbak⟩ := ensureBackup_ok_cases he
      simp only [except_bind_ok] at h
      cases hr : readFileT .sstf90 fs1 with
      | error e =>
        rw [hr] at h
        exact absurd h (by simp)
      | ok x =>
        rw [hr] at h
        simp only [except_bind_ok] at h
        have hx : fs1.file .sstf90 = some x := readFileT_ok hr
        by_cases hA : strContains x SST_OLD_IMPORTS = true ∧
            ¬ strContains x USE_PARAMTURB = true
        · rw [if_pos hA] at h
          simp only [] at h
          by_cases hB : strContains (pyReplaceOne SST_OLD_IMPORTS SST_NEW_IMPORTS x)
              PAT_BETAS = true
          · rw [if_pos hB] at h
            simp only [Prod.snd, except_pure, if_true, Except.ok.injEq] at h
            subst h
            refine ⟨fun u hu => ⟨by rw [writeFileT_file_ne hu, hfile], by rw [writeFileT_bak, hbak u hu]⟩, Or.inr ⟨_, writeFileT_file_self _ _ _, by simp [hsome], ?_⟩⟩
            exact sst_post_of_write x hA (Or.inl rfl)
          · rw [if_neg hB] at h
            simp only [Prod.snd, except_pure, if_true, Except.ok.injEq] at h
            subst h
            refine ⟨fun u hu => ⟨by rw [writeFileT_file_ne hu, hfile], by rw [writeFileT_bak, hbak u hu]⟩, Or.inr ⟨_, writeFileT_file_self _ _ _, by simp [hsome], ?_⟩⟩
            exact sst_post_of_write x hA (Or.inr ⟨rfl, by simpa using hB⟩)
        · rw [if_neg hA] at h
          simp only [] at h
          by_cases hB : strContains x PAT_BETAS = true
          · rw [if_pos hB] at h
            simp only [Prod.snd, except_pure, if_true, Except.ok.injEq] at h
            subst h
            refine ⟨fun u hu => ⟨by rw [writeFileT_file_ne hu, hfile], by rw [writeFileT_bak, hbak u hu]⟩, Or.inr ⟨_, writeFileT_file_self _ _ _, by simp [hsome], ?_⟩⟩
            exact sst_post_of_write_noA x hA hB
          · rw [if_neg hB] at h
            simp only [Prod.snd, except_pure, if_false, Except.ok.injEq, Bool.false_eq_true, if_neg] at h
            subst h
            refine ⟨fun u hu => ⟨by rw [hfile], hbak u hu⟩, Or.inr ⟨x, hx, hsome, ?_, by simpa using hB⟩⟩
            by_cases hu : strContains x USE_PARAMTURB = true
            · exact Or.inl hu
            · refine Or.inr ?_
              cases ho : strContains x SST_OLD_IMPORTS
              · rfl
              · exact absurd ⟨ho, hu⟩ hA

lemma patch_sst_fix {fs : FS}
    (h : fs.file .sstf90 = none ∨
      ∃ y, fs.file .sstf90 = some y ∧ (fs.bak .sstf90).isSome = true ∧
        (strContains y USE_PARAMTURB = true ∨ strContains y SST_OLD_IMPORTS = false) ∧
        strContains y PAT_BETAS = false) :
    patch_sst fs = .ok fs := by
  unfold patch_sst
  rcases h with h | ⟨y, hf, hb, hpost1, hpost2⟩
  · rw [if_pos (Option.isNone_iff_eq_none.mpr h)]
  · rw [if_neg (by simp [hf]), ensureBackup_of_isSome hb]
    simp only [except_bind_ok]
    rw [readFileT_of_some hf]
    simp only [except_bind_ok]
    have hA : ¬ (strContains y SST_OLD_IMPORTS = true ∧
        ¬ strContains y USE_PARAMTURB = true) := by
      rintro ⟨ho, hu⟩
      rcases hpost1 with h1 | h1
      · exact hu h1
      · rw [h1] at ho
        exact absurd ho (by decide)
    rw [if_neg hA]
    simp only []
    rw [if_neg (by simp [hpost2])]
    simp

lemma patch_turbutils_ok {fs fs' : FS} (h : patch_turbutils fs = .ok fs') :
    (∀ u, u ≠ PatchTarget.turbutils → fs'.file u = fs.file u ∧ fs'.bak u = fs.bak u) ∧
    (fs'.file .turbutils = none ∨
      ∃ y, fs'.file .turbutils = some y ∧ (fs'.bak .turbutils).isSome = true ∧
        strContains y PAT_BETAS = false) := by
  unfold patch_turbutils at h
  by_cases hn : (fs.file .turbutils).isNone = true
  · rw [if_pos hn, Except.ok.injEq] at h
    subst h
    exact ⟨fun u _ => ⟨rfl, rfl⟩, Or.inl (Option.isNone_iff_eq_none.mp hn)⟩
  · rw [if_neg hn] at h
    cases he : ensureBackup .turbutils fs with
    | error e =>
      rw [he] at h
      exact absurd h (by simp)
    | ok fs1 =>
      rw [he] at h
      obtain ⟨hfile, hsome, hbak⟩ := ensureBackup_ok_cases he
      simp only [except_bind_ok] at h
      cases hr : readFileT .turbutils fs1 with
      | error e =>
        rw [hr] at h
        exact absurd h (by simp)
      | ok x =>
        rw [hr] at h
        simp only [except_bind_ok] at h
        have hx : fs1.file .turbutils = some x := readFileT_ok hr
        by_cases hB : strContains x PAT_BETAS = true
        · rw [if_pos hB] at h
          simp only [except_pure, Except.ok.injEq] at h
          subst h
          exact ⟨fun u hu => ⟨by rw [writeFileT_file_ne hu, hfile],
              by rw [writeFileT_bak, hbak u hu]⟩,
            Or.inr ⟨_, writeFileT_file_self _ _ _, by simp [hsome],
              strContains_eq_false_iff.mpr (pat_not_infix_pyReplace
                pat_betas_ne_nil noov_pat_repl noov_repl_pat _)⟩⟩
        · rw [if_neg hB] at h
          simp only [except_pure, Except.ok.injEq] at h
          subst h
          exact ⟨fun u hu => ⟨by rw [hfile], hbak u hu⟩,
            Or.inr ⟨x, hx, hsome, by simpa using hB⟩⟩

lemma patch_turbutils_fix {fs : FS}
    (h : fs.file .turbutils = none ∨
      ∃ y, fs.file .turbutils = some y ∧ (fs.bak .turbutils).isSome = true ∧
        strContains y PAT_BETAS = false) :
    patch_turbutils fs = .ok fs := by
  unfold patch_turbutils
  rcases h with h | ⟨y, hf, hb, hp⟩
  · rw [if_pos (Option.isNone_iff_eq_none.mpr h)]
  · rw [if_neg (by simp [hf]), ensureBackup_of_isSome hb]
    simp only [except_bind_ok]
    rw [readFileT_of_some hf]
    simp only [except_bind_ok]
    rw [if_neg (by simp [hp])]
    rfl

/-- C5: running the Patcher over a tree a successful first run produced is
the identity: every target file's contents stay byte-identical to the
first run's output and no file (in particular no additional backup) is
created or changed, so the one backup per target made by the first run is
all that ever exists. -/
theorem patcher_second_run_is_identity (fs fs₁ : FS)
    (h : patcherMain fs = .ok fs₁) : patcherMain fs₁ = .ok fs₁ := by
  unfold patcherMain at h
  cases h1 : patch_paramturb fs with
  | error e =>
    rw [h1] at h
    exact absurd h (by simp)
  | ok f1 =>
  rw [h1] at h
  simp only [except_bind_ok] at h
  cases h2 : patch_pyf f1 with
  | error e =>
    rw [h2] at h
    exact absurd h (by simp)
  | ok f2 =>
  rw [h2] at h
  simp only [except_bind_ok] at h
  cases h3 : patch_initializeflow f2 with
  | error e =>
    rw [h3] at h
    exact absurd h (by simp)
  | ok f3 =>
  rw [h3] at h
  simp only [except_bind_ok] at h
  cases h4 : patch_sst f3 with
  | error e =>
    rw [h4] at h
    exact absurd h (by simp)
  | ok f4 =>
  rw [h4] at h
  simp only [except_bind_ok] at h
  obtain ⟨hp_file, hp_bak, hp_frame⟩ := patch_paramturb_ok h1
  obtain ⟨hy_bak, hy_frame, y, hy_file, hy_post⟩ := patch_pyf_ok h2
  obtain ⟨hi_frame, hi_file, hi_none, hi_some⟩ := patch_initializeflow_ok h3
  obtain ⟨hs_frame, hs_post⟩ := patch_sst_ok h4
  obtain ⟨ht_frame, ht_post⟩ := patch_turbutils_ok h
  -- the paramTurb.F90 slots at the final state
  have hP1 : fs₁.file .paramturb = some PARAMTURB_NEW := by
    rw [(ht_frame .paramturb (by decide)).1, (hs_frame .paramturb (by decide)).1,
      (hi_frame .paramturb (by decide)).1, (hy_frame .paramturb (by decide)).1,
      hp_file]
  have hP2 : (fs₁.bak .paramturb).isSome = true := by
    rw [(ht_frame .paramturb (by decide)).2, (hs_frame .paramturb (by decide)).2,
      (hi_frame .paramturb (by decide)).2, (hy_frame .paramturb (by decide)).2]
    exact hp_bak
  -- the adflow.pyf slots at the final state
  have hY1 : fs₁.file .pyf = some y := by
    rw [(ht_frame .pyf (by decide)).1, (hs_frame .pyf (by decide)).1,
      (hi_frame .pyf (by decide)).1, hy_file]
  have hY2 : (fs₁.bak .pyf).isSome = true := by
    rw [(ht_frame .pyf (by decide)).2, (hs_frame .pyf (by decide)).2,
      (hi_frame .pyf (by decide)).2]
    exact hy_bak
  -- the initializeFlow.F90 slot
  have hI : fs₁.file .initflow = none ∨ (fs₁.bak .initflow).isSome = true := by
    by_cases hin : f2.file .initflow = none
    · refine Or.inl ?_
      rw [(ht_frame .initflow (by decide)).1, (hs_frame .initflow (by decide)).1,
        hi_file, hin]
    · refine Or.inr ?_
      rw [(ht_frame .initflow (by decide)).2, (hs_frame .initflow (by decide)).2]
      exact hi_some hin
  -- the SST.F90 slot
  have hS : fs₁.file .sstf90 = none ∨
      ∃ z, fs₁.file .sstf90 = some z ∧ (fs₁.bak .sstf90).isSome = true ∧
        (strContains z USE_PARAMTURB = true ∨ strContains z SST_OLD_IMPORTS = false) ∧
        strContains z PAT_BETAS = false := by
    rcases hs_post with hnone | ⟨z, hz1, hz2, hz3, hz4⟩
    · exact Or.inl (by rw [(ht_frame .sstf90 (by decide)).1]; exact hnone)
    · exact Or.inr ⟨z, by rw [(ht_frame .sstf90 (by decide)).1]; exact hz1,
        by rw [(ht_frame .sstf90 (by decide)).2]; exact hz2, hz3, hz4⟩
  -- rebuild the second run
  unfold patcherMain
  rw [patch_paramturb_fix hP1 hP2]
  simp only [except_bind_ok]
  rw [patch_pyf_fix hY2 hY1 hy_post]
  simp only [except_bind_ok]
  rw [patch_initializeflow_fix hI]
  simp only [except_bind_ok]
  rw [patch_sst_fix hS]
  simp only [except_bind_ok]
  exact patch_turbutils_fix ht_post

/-- Witness for C5 at a concrete tree. -/
theorem patcher_second_run_is_identity_witness : patcherMain fsW1 = .ok fsW1 :=
  patcher_second_run_is_identity fsW fsW1 rfl

/-- C6 counterexample: with `paramTurb.F90` missing, `patch_paramturb`
raises (`shutil.copy2` gets a missing source) instead of warning and
skipping, and the uncaught exception aborts the whole run before the
remaining targets are processed. -/
theorem patcher_missing_upstream_raises :
    patch_paramturb fsNoParam = .error () ∧ patcherMain fsNoParam = .error () :=
  ⟨rfl, rfl⟩

/-- C6 amended: only the three targets that check for existence
(`initializeFlow.F90`, `SST.F90`, `turbUtils.F90`) warn and skip without
raising when the upstream file is missing; their step returns normally, so
processing continues. -/
theorem patcher_missing_upstream_skips_checked_targets (fs : FS) :
    (fs.file .initflow = none → patch_initializeflow fs = .ok fs) ∧
    (fs.file .sstf90 = none → patch_sst fs = .ok fs) ∧
    (fs.file .turbutils = none → patch_turbutils fs = .ok fs) := by
  refine ⟨fun h => ?_, fun h => ?_, fun h => ?_⟩
  · unfold patch_initializeflow
    rw [if_pos (Option.isNone_iff_eq_none.mpr h)]
  · unfold patch_sst
    rw [if_pos (Option.isNone_iff_eq_none.mpr h)]
  · unfold patch_turbutils
    rw [if_pos (Option.isNone_iff_eq_none.mpr h)]

/-- Witness for the amended C6 at a concrete tree. -/
theorem patcher_missing_upstream_skips_checked_targets_witness :
    patch_initializeflow fsOnlyCore = .ok fsOnlyCore ∧
    patch_sst fsOnlyCore = .ok fsOnlyCore ∧
    patch_turbutils fsOnlyCore = .ok fsOnlyCore :=
  ⟨(patcher_missing_upstream_skips_checked_targets fsOnlyCore).1 rfl,
   (patcher_missing_upstream_skips_checked_targets fsOnlyCore).2.1 rfl,
   (patcher_missing_upstream_skips_checked_targets fsOnlyCore).2.2 rfl⟩
